import Mathlib

/-!
Shallow embedding of netdata's per-connection web client engine
(`src/web/server/web_client.c`) and proofs about it.

Modelling conventions:
- C strings are `List Char`; a netdata `BUFFER` is a `WebBuffer` carrying an
  allocation identity (`alloc`, standing for the C pointer) and its content;
  a nullable `BUFFER *` field is `Option WebBuffer`.
- Machine integers are `Nat`/`Int`; file descriptors are `Int` (-1 = invalid).
- System effects (stat/open results, zlib's deflateInit2 result, the helpers
  that live in other translation units) enter as explicit oracle arguments.
-/

set_option maxRecDepth 10000

/-! ## HTTP response codes (http_defs) -/

def HTTP_RESP_OK : Int := 200
def HTTP_RESP_MOVED_PERM : Int := 301
def HTTP_RESP_REDIR_TEMP : Int := 307
def HTTP_RESP_BAD_REQUEST : Int := 400
def HTTP_RESP_FORBIDDEN : Int := 403
def HTTP_RESP_NOT_FOUND : Int := 404
def HTTP_RESP_PRECOND_FAIL : Int := 412
def HTTP_RESP_GATEWAY_TIMEOUT : Int := 504

/-- Modelled from the spec (§4.8, §7): `HTTP_RESP_HTTPS_UPGRADE` is an internal
sentinel response code (defined in the http headers, not under `src/`); its
numeric value is irrelevant to the engine as long as it is none of the real
codes emitted. -/
def HTTP_RESP_HTTPS_UPGRADE : Int := 399

/-! ## Content types (`HTTP_CONTENT_TYPE`) -/

inductive HTTP_CONTENT_TYPE where
  | CT_TEXT_HTML
  | CT_APPLICATION_XML
  | CT_APPLICATION_JSON
  | CT_APPLICATION_X_JAVASCRIPT
  | CT_TEXT_CSS
  | CT_TEXT_XML
  | CT_TEXT_XSL
  | CT_APPLICATION_OCTET_STREAM
  | CT_IMAGE_SVG_XML
  | CT_APPLICATION_X_FONT_TRUETYPE
  | CT_APPLICATION_X_FONT_OPENTYPE
  | CT_APPLICATION_FONT_WOFF
  | CT_APPLICATION_FONT_WOFF2
  | CT_APPLICATION_VND_MS_FONTOBJ
  | CT_IMAGE_PNG
  | CT_IMAGE_JPG
  | CT_IMAGE_GIF
  | CT_IMAGE_XICON
  | CT_IMAGE_BMP
  | CT_IMAGE_ICNS
  | CT_PROMETHEUS
  | CT_AUDIO_MPEG
  | CT_AUDIO_OGG
  | CT_VIDEO_MP4
  | CT_APPLICATION_PDF
  | CT_APPLICATION_ZIP
  | CT_TEXT_PLAIN
  deriving DecidableEq, Repr

open HTTP_CONTENT_TYPE

/-! ## The MIME table (lines 271-296) -/

/-- The static `mime_types[]` table, in source order. The `hash` column is a
pure function of the extension and only short-circuits `strcmp`; since the
entry is taken exactly when both hash and `strcmp` agree, the embedded lookup
compares extensions directly. -/
def mime_types : List (List Char × HTTP_CONTENT_TYPE) :=
  [ ("html".data , CT_TEXT_HTML)
  , ("js".data   , CT_APPLICATION_X_JAVASCRIPT)
  , ("css".data  , CT_TEXT_CSS)
  , ("xml".data  , CT_TEXT_XML)
  , ("xsl".data  , CT_TEXT_XSL)
  , ("txt".data  , CT_TEXT_PLAIN)
  , ("svg".data  , CT_IMAGE_SVG_XML)
  , ("ttf".data  , CT_APPLICATION_X_FONT_TRUETYPE)
  , ("otf".data  , CT_APPLICATION_X_FONT_OPENTYPE)
  , ("woff2".data, CT_APPLICATION_FONT_WOFF2)
  , ("woff".data , CT_APPLICATION_FONT_WOFF)
  , ("eot".data  , CT_APPLICATION_VND_MS_FONTOBJ)
  , ("png".data  , CT_IMAGE_PNG)
  , ("jpg".data  , CT_IMAGE_JPG)
  , ("jpeg".data , CT_IMAGE_JPG)
  , ("gif".data  , CT_IMAGE_GIF)
  , ("bmp".data  , CT_IMAGE_BMP)
  , ("ico".data  , CT_IMAGE_XICON)
  , ("icns".data , CT_IMAGE_ICNS) ]

/-- First-match association lookup, as the `for` loop of
`contenttype_for_filename` (lines 328-333) performs it. -/
def mime_lookup : List (List Char × HTTP_CONTENT_TYPE) → List Char → Option HTTP_CONTENT_TYPE
  | [], _ => none
  | (ext, ct) :: rest, e => if e = ext then some ct else mime_lookup rest e

/-- The suffix strictly after the last occurrence of `c` in the list, mirroring
the forward pointer scans that remember the last `'.'` (lines 313-317) and the
backward scans to the previous `'/'` (lines 359-362, 369-371). `none` when `c`
does not occur. -/
def suffix_after_last (c : Char) : List Char → Option (List Char)
  | [] => none
  | x :: rest =>
    match suffix_after_last c rest with
    | some s => some s
    | none => if x = c then some rest else none

/-- Embedding of `contenttype_for_filename` (lines 298-337): find the last dot; no dot or a
trailing dot means `CT_APPLICATION_OCTET_STREAM`; otherwise look the extension
up in the MIME table, defaulting to `CT_APPLICATION_OCTET_STREAM`. -/
def contenttype_for_filename (filename : List Char) : HTTP_CONTENT_TYPE :=
  match suffix_after_last '.' filename with
  | none => CT_APPLICATION_OCTET_STREAM
  | some ext =>
    if ext = [] then CT_APPLICATION_OCTET_STREAM
    else (mime_lookup mime_types ext).getD CT_APPLICATION_OCTET_STREAM

/-! ## Buffers -/

structure BufferOptions where
  cacheable : Bool
  noCacheable : Bool
  deriving DecidableEq, Repr

structure WebBuffer where
  alloc : Nat
  content : List Char
  contentType : HTTP_CONTENT_TYPE
  options : BufferOptions
  date : Int
  expires : Int
  deriving DecidableEq, Repr

/-- Embedding of `buffer_flush`: drop the content (`len = 0`), keep everything else. -/
def buffer_flush (b : WebBuffer) : WebBuffer := { b with content := [] }

/-- Modelled from the spec (§4.1): `buffer_reset` (buffer library, not under
`src/`) empties the buffer and clears its metadata, keeping the allocation. -/
def buffer_reset (b : WebBuffer) : WebBuffer :=
  { b with content := [], contentType := CT_TEXT_PLAIN,
           options := ⟨false, false⟩, date := 0, expires := 0 }

/-- Modelled from the spec (§4.1 caching flags): `buffer_no_cacheable` (buffer
library, not under `src/`) marks the buffer non-cacheable. -/
def buffer_no_cacheable (b : WebBuffer) : WebBuffer :=
  { b with options := ⟨false, true⟩ }

/-- Modelled from the spec (§4.1 caching flags): `buffer_cacheable` (buffer
library, not under `src/`) marks the buffer cacheable. -/
def buffer_cacheable (b : WebBuffer) : WebBuffer :=
  { b with options := ⟨true, false⟩ }

/-- Embedding of `buffer_strcat`/`buffer_strncat`/`buffer_sprintf`: append bytes. -/
def buffer_strcat (b : WebBuffer) (s : List Char) : WebBuffer :=
  { b with content := b.content ++ s }

def bufContent (o : Option WebBuffer) : List Char := (o.map WebBuffer.content).getD []

def bufLen (o : Option WebBuffer) : Nat := (bufContent o).length

def bufAlloc (o : Option WebBuffer) : Option Nat := o.map WebBuffer.alloc

/-! ## Client state -/

structure WebClientFlags where
  keepalive : Bool
  donottrack : Bool
  trackingRequired : Bool
  dead : Bool
  waitReceive : Bool
  waitSend : Bool
  chunkedTransfer : Bool
  pathWithVersion : Bool
  pathIsV0 : Bool
  pathIsV1 : Bool
  pathIsV2 : Bool
  pathHasFileExtension : Bool
  pathHasTrailingSlash : Bool
  deriving DecidableEq, Repr

def flagsZero : WebClientFlags :=
  { keepalive := false, donottrack := false, trackingRequired := false, dead := false,
    waitReceive := false, waitSend := false, chunkedTransfer := false,
    pathWithVersion := false, pathIsV0 := false, pathIsV1 := false, pathIsV2 := false,
    pathHasFileExtension := false, pathHasTrailingSlash := false }

inductive WebClientMode where
  | GET | POST | PUT | DELETE | OPTIONS | STREAM | FILECOPY
  deriving DecidableEq, Repr

/-- The z_stream fields the engine resets explicitly (lines 151-156, 588-593). -/
structure ZStream where
  availIn : Nat
  availOut : Nat
  totalIn : Nat
  totalOut : Nat
  deriving DecidableEq, Repr

def zstreamZero : ZStream := ⟨0, 0, 0, 0⟩

structure WebResponse where
  data : Option WebBuffer
  header : Option WebBuffer
  header_output : Option WebBuffer
  code : Int
  rlen : Nat
  sent : Nat
  zoutput : Bool
  zinitialized : Bool
  zsent : Nat
  zhave : Nat
  zstream : ZStream
  has_cookies : Bool
  deriving DecidableEq, Repr

structure WebClient where
  id : Nat
  use_count : Nat
  flags : WebClientFlags
  mode : WebClientMode
  ifd : Int
  ofd : Int
  tcp_cork : Bool
  url_as_received : Option WebBuffer
  url_path_decoded : Option WebBuffer
  url_query_string_decoded : Option WebBuffer
  post_payload : Option (List Char)
  header_parse_tries : Nat
  header_parse_last_size : Nat
  origin : Option (List Char)
  user_agent : Option (List Char)
  server_host : Option (List Char)
  forwarded_host : Option (List Char)
  auth_bearer_token : Option (List Char)
  response : WebResponse
  stats_received_bytes : Nat
  stats_sent_bytes : Nat
  stats_memory_accounting : Nat
  ssl : Nat
  deriving DecidableEq, Repr

def webResponseZero : WebResponse :=
  { data := none, header := none, header_output := none, code := 0, rlen := 0,
    sent := 0, zoutput := false, zinitialized := false, zsent := 0, zhave := 0,
    zstream := zstreamZero, has_cookies := false }

/-- The all-zero client: the state `memset(w, 0, sizeof(struct web_client))`
produces (line 2338). `WEB_CLIENT_MODE_GET` is the zero value of the mode enum
(spec §3: "Initial and reset value is `GET`", and `web_client_create` leaves
the calloc-zeroed mode in place). -/
def webClientZero : WebClient :=
  { id := 0, use_count := 0, flags := flagsZero, mode := .GET, ifd := 0, ofd := 0,
    tcp_cork := false, url_as_received := none, url_path_decoded := none,
    url_query_string_decoded := none, post_payload := none, header_parse_tries := 0,
    header_parse_last_size := 0, origin := none, user_agent := none,
    server_host := none, forwarded_host := none, auth_bearer_token := none,
    response := webResponseZero, stats_received_bytes := 0, stats_sent_bytes := 0,
    stats_memory_accounting := 0, ssl := 0 }

/-- Modelled from the spec (§3 path flags): `web_client_reset_path_flags`
(web_client.h, not under `src/`) clears the six dashboard-path flags. -/
def web_client_reset_path_flags (w : WebClient) : WebClient :=
  { w with flags := { w.flags with
      pathWithVersion := false, pathIsV0 := false, pathIsV1 := false,
      pathIsV2 := false, pathHasFileExtension := false, pathHasTrailingSlash := false } }

/-! ## Lifecycle: reset, request_done, reuse, deflate (lines 92-269, 572-616, 2317-2355) -/

/-- Embedding of `web_client_reset_allocations` (lines 92-162). With `free_all` the buffers
are freed (`none`); otherwise each is `buffer_reset`. Parsed header copies are
freed either way, and an initialized deflate stream is shut down together with
the `CHUNKED_TRANSFER` flag. -/
def web_client_reset_allocations (w : WebClient) (free_all : Bool) : WebClient :=
  let w :=
    if free_all then
      { w with url_as_received := none, url_path_decoded := none,
               url_query_string_decoded := none,
               response := { w.response with
                 header_output := none, header := none, data := none },
               post_payload := none }
    else
      { w with url_as_received := w.url_as_received.map buffer_reset,
               url_path_decoded := w.url_path_decoded.map buffer_reset,
               url_query_string_decoded := w.url_query_string_decoded.map buffer_reset,
               response := { w.response with
                 header_output := w.response.header_output.map buffer_reset,
                 header := w.response.header.map buffer_reset,
                 data := w.response.data.map buffer_reset } }
  let w := { w with server_host := none, forwarded_host := none, origin := none,
                    user_agent := none, auth_bearer_token := none }
  let w :=
    if w.response.zinitialized then
      { w with response := { w.response with
                 zsent := 0, zhave := 0, zstream := zstreamZero, zinitialized := false },
               flags := { w.flags with chunkedTransfer := false } }
    else w
  web_client_reset_path_flags w

/-- Embedding of `web_client_request_done` (lines 164-269). The access-log block only reads
state, except that it zeroes the per-request statistics counters when a URL was
received; the FILECOPY block collapses `ifd` back onto `ofd`. -/
def web_client_request_done (w : WebClient) : WebClient :=
  let w := { w with tcp_cork := false }
  let w := if bufLen w.url_as_received ≠ 0 then
             { w with stats_received_bytes := 0, stats_sent_bytes := 0 }
           else w
  let w := if w.mode = .FILECOPY ∧ w.ifd ≠ w.ofd then { w with ifd := w.ofd } else w
  let w := web_client_reset_allocations w false
  { w with mode := .GET,
           flags := { w.flags with
             donottrack := false, trackingRequired := false, keepalive := false,
             waitReceive := true, waitSend := false },
           header_parse_tries := 0, header_parse_last_size := 0,
           response := { w.response with
             has_cookies := false, rlen := 0, sent := 0, code := 0, zoutput := false } }

/-- Embedding of `web_client_enable_deflate` (lines 572-616). `deflateInit2_ok` is the
oracle for zlib's `deflateInit2` return; `gzip` only selects the window bits
passed to it. On the two early returns the client is untouched; after a failed
init only the zeroed stream counters remain changed. -/
def web_client_enable_deflate (w : WebClient) (gzip : Bool) (deflateInit2_ok : Bool) :
    WebClient :=
  if w.response.zinitialized then w
  else if w.response.sent ≠ 0 then w
  else
    let _ := gzip
    let w := { w with response := { w.response with zstream := zstreamZero } }
    if deflateInit2_ok then
      { w with response := { w.response with
                 zsent := 0, zoutput := true, zinitialized := true },
               flags := { w.flags with chunkedTransfer := true } }
    else w

/-- Embedding of `web_client_reuse_from_cache` (lines 2317-2355): reset allocations, save
the six buffer pointers, the ssl handle, the use count and the memory
accounting pointer, `memset` the whole struct to zero, set `ifd = ofd = -1`,
and restore the saved handles. -/
def web_client_reuse_from_cache (w : WebClient) : WebClient :=
  let w0 := web_client_reset_allocations w false
  let b1 := w0.response.data
  let b2 := w0.response.header
  let b3 := w0.response.header_output
  let b4 := w0.url_path_decoded
  let b5 := w0.url_as_received
  let b6 := w0.url_query_string_decoded
  let sslSaved := w0.ssl
  let useCount := w0.use_count
  let mem := w0.stats_memory_accounting
  { webClientZero with
      ifd := -1, ofd := -1,
      stats_memory_accounting := mem, use_count := useCount, ssl := sslSaved,
      response := { webResponseZero with data := b1, header := b2, header_output := b3 },
      url_path_decoded := b4, url_as_received := b5, url_query_string_decoded := b6 }

/-! ## Static file responder (lines 339-569) -/

/-- Embedding of `strchr`: index of the first occurrence. -/
def strchr_pos : List Char → Char → Option Nat
  | [], _ => none
  | x :: xs, c =>
    if x = c then some 0
    else
      match strchr_pos xs c with
      | some j => some (j + 1)
      | none => none

/-- The backward scan of `append_slash_to_url_and_redirect` (lines 359-362 and
369-371): from the end of `p`, step back over non-`'/'` characters; the
component it delimits is the reversed run of trailing non-slash characters
(the whole of `p` when it has no slash). -/
def url_last_component (p : List Char) : List Char :=
  (p.reverse.takeWhile (fun c => c ≠ '/')).reverse

/-- The static HTML body written by `append_slash_to_url_and_redirect`
(lines 381-386). -/
def redirect_html_body : List Char :=
  ("<!DOCTYPE html><html>"
    ++ "<body onload=\"window.location.href = window.location.origin + window.location.pathname + '/' + window.location.search + window.location.hash\">"
    ++ "Redirecting. In case your browser does not support redirection, please click "
    ++ "<a onclick=\"window.location.href = window.location.origin + window.location.pathname + '/' + window.location.search + window.location.hash\">here</a>."
    ++ "</body></html>").data

/-- Embedding of `append_slash_to_url_and_redirect` (lines 339-388): append a relative
`Location:` made of the last path component of `url_as_received` plus `/` (and
the query string, from its `?`, when one exists past the first byte), replace
the body with the static redirect page, and return 301. -/
def append_slash_to_url_and_redirect (w : WebClient) : WebClient × Int :=
  let b := bufContent w.url_as_received
  let loc : List Char :=
    match strchr_pos b '?' with
    | some q =>
      if 0 < q then
        "Location: ".data ++ url_last_component (b.take q) ++ "/".data
          ++ b.drop q ++ "\r\n".data
      else
        "Location: ".data ++ url_last_component b ++ "/".data ++ "\r\n".data
    | none =>
      "Location: ".data ++ url_last_component b ++ "/".data ++ "\r\n".data
  let w := { w with response := { w.response with
               header := w.response.header.map (fun h => buffer_strcat h loc) } }
  let w := { w with response := { w.response with
               data := w.response.data.map (fun d =>
                 buffer_strcat (buffer_flush { d with contentType := CT_TEXT_HTML })
                   redirect_html_body) } }
  (w, HTTP_RESP_MOVED_PERM)

/-- C `isalnum` in the C locale: ASCII letters and digits. -/
def c_isalnum (c : Char) : Bool := c.isAlphanum

/-- The character filter of `mysendfile` (line 496): anything outside
`[A-Za-z0-9/._-]` is refused. -/
def mysendfile_invalid_char (c : Char) : Bool :=
  !(c_isalnum c || c = '/' || c = '.' || c = '-' || c = '_')

/-- Embedding of `strstr(filename, "..") != 0` (line 506). -/
def contains_dot_dot : List Char → Bool
  | '.' :: '.' :: _ => true
  | _ :: rest => contains_dot_dot rest
  | [] => false

/-- Modelled from the spec: `buffer_strcat_htmlescape` (buffer library, not
under `src/`) appends with the HTML metacharacters escaped. -/
def html_escape (s : List Char) : List Char :=
  (s.map (fun c =>
    if c = '&' then "&amp;".data
    else if c = '<' then "&lt;".data
    else if c = '>' then "&gt;".data
    else if c = '"' then "&quot;".data
    else [c])).flatten

/-- Embedding of `web_client_permission_denied` (lines 13-19). -/
def web_client_permission_denied (w : WebClient) : WebClient :=
  { w with response := { w.response with
      data := w.response.data.map (fun d =>
        buffer_strcat (buffer_flush { d with contentType := CT_TEXT_PLAIN })
          "You are not allowed to access this resource.".data),
      code := HTTP_RESP_FORBIDDEN } }

/-- Oracle for the filesystem interaction of `mysendfile`:
`findOk`/`isDir`/`setsTrailingSlash` describe `find_filename_to_serve`
(lines 407-482: whether it succeeded, whether it appended `/index.html` for a
directory, and whether one of its fallbacks set `PATH_HAS_TRAILING_SLASH`),
`resolved` is the `web_filename` it produced, and `openOk`/`openBusy`/`fd`
describe the subsequent `open` (line 529; `openBusy` = errno was
`EBUSY`/`EAGAIN`). `fileSize`/`mtime` come from the successful `stat`. -/
structure FsProbe where
  findOk : Bool
  isDir : Bool
  setsTrailingSlash : Bool
  resolved : List Char
  openOk : Bool
  openBusy : Bool
  fd : Int
  fileSize : Nat
  mtime : Int
  deriving DecidableEq, Repr

/-- Result of `mysendfile`: the new client state, the returned HTTP code, and
whether the filesystem was consulted (`statAttempted` =
`find_filename_to_serve` was called, `openAttempted` = `open` was called). -/
structure MySendfileResult where
  w : WebClient
  code : Int
  statAttempted : Bool
  openAttempted : Bool
  deriving DecidableEq, Repr

/-- Embedding of `mysendfile` (lines 484-569): ACL check, skip leading slashes, refuse bad
characters and `..`, resolve on disk, redirect directories without trailing
slash, open the file, and switch the client to FILECOPY mode. -/
def mysendfile (w : WebClient) (filename : List Char) (canAccessDashboard : Bool)
    (fs : FsProbe) : MySendfileResult :=
  if !canAccessDashboard then
    ⟨web_client_permission_denied w, HTTP_RESP_FORBIDDEN, false, false⟩
  else
    let f := filename.dropWhile (fun c => c = '/')
    if f.any mysendfile_invalid_char then
      let w := { w with response := { w.response with
                   data := w.response.data.map (fun d =>
                     buffer_strcat { d with contentType := CT_TEXT_HTML }
                       ("Filename contains invalid characters: ".data ++ html_escape f)) } }
      ⟨w, HTTP_RESP_BAD_REQUEST, false, false⟩
    else if contains_dot_dot f then
      let w := { w with response := { w.response with
                   data := w.response.data.map (fun d =>
                     buffer_strcat { d with contentType := CT_TEXT_HTML }
                       ("Relative filenames are not supported: ".data ++ html_escape f)) } }
      ⟨w, HTTP_RESP_BAD_REQUEST, false, false⟩
    else
      let w := if fs.setsTrailingSlash then
                 { w with flags := { w.flags with pathHasTrailingSlash := true } }
               else w
      if !fs.findOk then
        let w := { w with response := { w.response with
                     data := w.response.data.map (fun d =>
                       buffer_strcat { d with contentType := CT_TEXT_HTML }
                         ("File does not exist, or is not accessible: ".data
                           ++ html_escape fs.resolved)) } }
        ⟨w, HTTP_RESP_NOT_FOUND, true, false⟩
      else if fs.isDir && !w.flags.pathHasTrailingSlash then
        let r := append_slash_to_url_and_redirect w
        ⟨r.1, r.2, true, false⟩
      else if !fs.openOk then
        let w := { w with ifd := w.ofd }
        if fs.openBusy then
          let w := { w with response := { w.response with
                       header := w.response.header.map (fun h =>
                         buffer_strcat h ("Location: /".data ++ f ++ "\r\n".data)),
                       data := w.response.data.map (fun d =>
                         buffer_strcat { d with contentType := CT_TEXT_HTML }
                           ("File is currently busy, please try again later: ".data
                             ++ html_escape fs.resolved)) } }
          ⟨w, HTTP_RESP_REDIR_TEMP, true, true⟩
        else
          let w := { w with response := { w.response with
                       data := w.response.data.map (fun d =>
                         buffer_strcat { d with contentType := CT_TEXT_HTML }
                           ("Cannot open file: ".data ++ html_escape fs.resolved)) } }
          ⟨w, HTTP_RESP_NOT_FOUND, true, true⟩
      else
        let w := { w with ifd := fs.fd }
        let w := { w with response := { w.response with
                     data := w.response.data.map (fun (d : WebBuffer) =>
                       { d with contentType := contenttype_for_filename fs.resolved }) } }
        let w := { w with mode := .FILECOPY,
                          flags := { w.flags with waitReceive := true, waitSend := false } }
        let w := { w with response := { w.response with
                     data := w.response.data.map (fun d =>
                       buffer_cacheable { (buffer_flush d) with date := fs.mtime }),
                     rlen := fs.fileSize } }
        ⟨w, HTTP_RESP_OK, true, true⟩

/-! ## Request validator (lines 1064-1265) -/

inductive HTTP_VALIDATION where
  | OK
  | NOT_SUPPORTED
  | TOO_MANY_READ_RETRIES
  | EXCESS_REQUEST_DATA
  | MALFORMED_URL
  | INCOMPLETE
  | REDIRECT
  deriving DecidableEq, Repr

/-- The method recognition of `web_client_valid_method` (lines 1074-1135),
as a pure function of the request bytes: the remainder after the method token,
or `none` when the method is unknown. `streamRefused` is the oracle for the
TLS-only refusal of `STREAM` (lines 1100-1126: no encrypted connection while
"force TLS" is on). -/
def valid_method_rest (s : List Char) (streamRefused : Bool) : Option (List Char) :=
  if "GET ".data.isPrefixOf s then some (s.drop 4)
  else if "OPTIONS ".data.isPrefixOf s then some (s.drop 8)
  else if "POST ".data.isPrefixOf s then some (s.drop 5)
  else if "PUT ".data.isPrefixOf s then some (s.drop 4)
  else if "DELETE ".data.isPrefixOf s then some (s.drop 7)
  else if "STREAM ".data.isPrefixOf s then
    if streamRefused then none else some (s.drop 7)
  else none

/-- Embedding of `web_client_valid_method` (lines 1074-1135) with its state effects: the
mode is recorded for each recognised method (including the refused `STREAM`,
whose branch also resets the parse progress and the receive wait, lines
1101-1103 and 1129). -/
def web_client_valid_method (w : WebClient) (s : List Char) (streamRefused : Bool) :
    Option (List Char) × WebClient :=
  if "GET ".data.isPrefixOf s then (some (s.drop 4), { w with mode := .GET })
  else if "OPTIONS ".data.isPrefixOf s then (some (s.drop 8), { w with mode := .OPTIONS })
  else if "POST ".data.isPrefixOf s then (some (s.drop 5), { w with mode := .POST })
  else if "PUT ".data.isPrefixOf s then (some (s.drop 4), { w with mode := .PUT })
  else if "DELETE ".data.isPrefixOf s then (some (s.drop 7), { w with mode := .DELETE })
  else if "STREAM ".data.isPrefixOf s then
    if streamRefused then
      (none, { w with
        mode := .STREAM, header_parse_tries := 0, header_parse_last_size := 0,
        flags := { w.flags with waitReceive := false } })
    else (some (s.drop 7), { w with mode := .STREAM })
  else (none, w)

/-- Embedding of `strstr(s, "\r\n\r\n")` (line 1190): the remainder after the first
end-of-headers marker, `none` when there is none. -/
def after_crlfcrlf : List Char → Option (List Char)
  | '\r' :: '\n' :: '\r' :: '\n' :: rest => some rest
  | _ :: rest => after_crlfcrlf rest
  | [] => none

/-- Abstraction of lines 1204-1264 of `http_request_validate` (the ` HTTP/`
search and the header-line loop with its `http_header_parse` side effects),
which are reached only once `url_is_request_complete` has reported a complete
request: the validation outcome of that tail. `ok` also stands for the path
that runs `web_client_decode_path_and_query_string`; those url-buffer side
effects are not tracked here (no claim about this function depends on them). -/
inductive DeepParseOutcome where
  | ok
  | redirect
  | incomplete
  deriving DecidableEq, Repr

/-- Embedding of `http_request_validate` (lines 1146-1265). `maxTries` is
`HTTP_REQ_MAX_HEADER_FETCH_TRIES` (web_client.h, not under `src/`; the spec
calls it a small bound). `urlIsRequestComplete` is the oracle for
`url_is_request_complete` (url.c, not under `src/`; spec §4.2 step 2: scans
for `CRLF CRLF` and, for POST/PUT, checks the announced body has arrived).
The returned pair is (validation, updated client); the function is split here
into the retry bookkeeping (`http_request_validate`) and the tail past it
(`http_request_validate_tail`, lines 1181-1264: method check, excess-data
check, and the abstracted deep parse). -/
def http_request_validate_tail (w : WebClient) (streamRefused : Bool)
    (buf : List Char) (is_it_valid : Bool) (deep : DeepParseOutcome) :
    HTTP_VALIDATION × WebClient :=
  match web_client_valid_method w buf streamRefused with
  | (none, w) =>
    (HTTP_VALIDATION.NOT_SUPPORTED,
     { w with header_parse_tries := 0, header_parse_last_size := 0,
              flags := { w.flags with waitReceive := false } })
  | (some _, w) =>
    if !is_it_valid then
      match after_crlfcrlf buf with
      | some rest =>
        if rest ≠ [] then
          (HTTP_VALIDATION.EXCESS_REQUEST_DATA,
           { w with header_parse_tries := 0, header_parse_last_size := 0,
                    flags := { w.flags with waitReceive := false } })
        else
          (HTTP_VALIDATION.INCOMPLETE,
           { w with flags := { w.flags with waitReceive := true } })
      | none =>
        (HTTP_VALIDATION.INCOMPLETE,
         { w with flags := { w.flags with waitReceive := true } })
    else
      match deep with
      | .incomplete =>
        (HTTP_VALIDATION.INCOMPLETE,
         { w with flags := { w.flags with waitReceive := true } })
      | .redirect =>
        (HTTP_VALIDATION.REDIRECT,
         { w with header_parse_tries := 0, header_parse_last_size := 0,
                  flags := { w.flags with waitReceive := false } })
      | .ok =>
        (HTTP_VALIDATION.OK,
         { w with header_parse_tries := 0, header_parse_last_size := 0,
                  flags := { w.flags with waitReceive := false } })

/-- The branch structure of `http_request_validate` after the `tries++` /
`last_size` update (lines 1154-1179 for the retry bookkeeping, then the tail):
`w` here is the client with the counters already advanced. -/
def http_request_validate_core (maxTries : Nat) (w : WebClient) (streamRefused : Bool)
    (urlIsRequestComplete : Bool) (deep : DeepParseOutcome) (buf : List Char) :
    HTTP_VALIDATION × WebClient :=
  if w.header_parse_tries > 1 then
    if !urlIsRequestComplete then
      if w.header_parse_tries > maxTries then
        (HTTP_VALIDATION.TOO_MANY_READ_RETRIES,
         { w with header_parse_tries := 0, header_parse_last_size := 0,
                  flags := { w.flags with waitReceive := false } })
      else (HTTP_VALIDATION.INCOMPLETE, w)
    else http_request_validate_tail w streamRefused buf true deep
  else http_request_validate_tail w streamRefused buf urlIsRequestComplete deep

def http_request_validate (maxTries : Nat) (w : WebClient) (streamRefused : Bool)
    (urlIsRequestComplete : Bool) (deep : DeepParseOutcome) :
    HTTP_VALIDATION × WebClient :=
  http_request_validate_core maxTries
    { w with header_parse_tries := w.header_parse_tries + 1,
             header_parse_last_size := (bufContent w.response.data).length }
    streamRefused urlIsRequestComplete deep (bufContent w.response.data)

/-- Overwrite the receive buffer content (the bytes accumulated by
`web_client_receive` before a validator call). -/
def set_response_data_content (w : WebClient) (l : List Char) : WebClient :=
  { w with response := { w.response with
      data := w.response.data.map (fun (d : WebBuffer) => { d with content := l }) } }

/-- A sequence of validator calls on one client whose request never completes:
before the k-th call the receive buffer holds `bufs k`, and every call
observes `url_is_request_complete` = false. -/
def validate_trace (maxTries : Nat) (bufs : Nat → List Char) (w : WebClient) :
    Nat → WebClient
  | 0 => w
  | k + 1 =>
    (http_request_validate maxTries
      (set_response_data_content (validate_trace maxTries bufs w k) (bufs k))
      false false .incomplete).2

/-- The validation returned by the (k+1)-th call of the trace. -/
def validate_call_result (maxTries : Nat) (bufs : Nat → List Char) (w : WebClient)
    (k : Nat) : HTTP_VALIDATION :=
  (http_request_validate maxTries
    (set_response_data_content (validate_trace maxTries bufs w k) (bufs k))
    false false .incomplete).1

/-! ## URL decoding (lines 2275-2315) -/

def hex_digit_val (c : Char) : Nat :=
  if c.isDigit then c.toNat - 48
  else if 'a' ≤ c ∧ c ≤ 'f' then c.toNat - 87
  else if 'A' ≤ c ∧ c ≤ 'F' then c.toNat - 55
  else 0

def is_hex_digit (c : Char) : Bool :=
  c.isDigit || ('a' ≤ c && c ≤ 'f') || ('A' ≤ c && c ≤ 'F')

/-- Modelled from the spec (§4.4): the percent-decoding core of `url_decode_r`
(url.c, not under `src/`): `%XY` with two hex digits becomes the coded byte,
everything else is copied. -/
def percent_decode : List Char → List Char
  | [] => []
  | '%' :: h1 :: h2 :: rest2 =>
    if is_hex_digit h1 && is_hex_digit h2 then
      Char.ofNat (16 * hex_digit_val h1 + hex_digit_val h2) :: percent_decode rest2
    else '%' :: percent_decode (h1 :: h2 :: rest2)
  | c :: rest => c :: percent_decode rest
termination_by l => l.length
decreasing_by all_goals simp_arith

/-- Modelled from the spec (§4.4): `url_decode_r(to, url, size)` (url.c, not
under `src/`) percent-decodes into a destination of `size` bytes, writing at
most `size - 1` characters. -/
def url_decode_r (src : List Char) (size : Nat) : List Char :=
  (percent_decode src).take (size - 1)

/-- Embedding of `web_client_decode_path_and_query_string` (lines 2275-2315). `urlSize` is
`NETDATA_WEB_REQUEST_URL_SIZE` (web_client.h, not under `src/`): the local
array holds `urlSize + 2` bytes and `url_decode_r` is given `urlSize + 1`.
In STREAM mode the whole decoded string becomes the query string; otherwise
the first `'?'` of the decoded string splits path from query (the query keeps
its `'?'`), and a decoded string without `'?'` leaves the query empty. -/
def web_client_decode_path_and_query_string (w : WebClient) (urlSize : Nat)
    (path_and_query_string : List Char) : WebClient :=
  let w := { w with url_path_decoded := w.url_path_decoded.map buffer_flush,
                    url_query_string_decoded := w.url_query_string_decoded.map buffer_flush }
  let w := if bufLen w.url_as_received = 0 then
             { w with url_as_received :=
                 w.url_as_received.map (fun b => buffer_strcat b path_and_query_string) }
           else w
  let decoded := url_decode_r path_and_query_string (urlSize + 1)
  if w.mode = .STREAM then
    { w with url_query_string_decoded :=
        w.url_query_string_decoded.map (fun b => buffer_strcat b decoded) }
  else
    match strchr_pos decoded '?' with
    | some q =>
      { w with
        url_query_string_decoded :=
          w.url_query_string_decoded.map (fun b => buffer_strcat b (decoded.drop q)),
        url_path_decoded :=
          w.url_path_decoded.map (fun b => buffer_strcat b (decoded.take q)) }
    | none =>
      { w with
        url_query_string_decoded :=
          w.url_query_string_decoded.map (fun b => buffer_strcat b []),
        url_path_decoded :=
          w.url_path_decoded.map (fun b => buffer_strcat b decoded) }

/-! ## Response header builder (lines 736-820, 822-975, 1287-1401) -/

/-- Embedding of `web_content_type_to_string` (lines 736-820). -/
def web_content_type_to_string : HTTP_CONTENT_TYPE → List Char
  | CT_TEXT_HTML => "text/html; charset=utf-8".data
  | CT_APPLICATION_XML => "application/xml; charset=utf-8".data
  | CT_APPLICATION_JSON => "application/json; charset=utf-8".data
  | CT_APPLICATION_X_JAVASCRIPT => "application/javascript; charset=utf-8".data
  | CT_TEXT_CSS => "text/css; charset=utf-8".data
  | CT_TEXT_XML => "text/xml; charset=utf-8".data
  | CT_TEXT_XSL => "text/xsl; charset=utf-8".data
  | CT_APPLICATION_OCTET_STREAM => "application/octet-stream".data
  | CT_IMAGE_SVG_XML => "image/svg+xml".data
  | CT_APPLICATION_X_FONT_TRUETYPE => "application/x-font-truetype".data
  | CT_APPLICATION_X_FONT_OPENTYPE => "application/x-font-opentype".data
  | CT_APPLICATION_FONT_WOFF => "application/font-woff".data
  | CT_APPLICATION_FONT_WOFF2 => "application/font-woff2".data
  | CT_APPLICATION_VND_MS_FONTOBJ => "application/vnd.ms-fontobject".data
  | CT_IMAGE_PNG => "image/png".data
  | CT_IMAGE_JPG => "image/jpeg".data
  | CT_IMAGE_GIF => "image/gif".data
  | CT_IMAGE_XICON => "image/x-icon".data
  | CT_IMAGE_BMP => "image/bmp".data
  | CT_IMAGE_ICNS => "image/icns".data
  | CT_PROMETHEUS => "text/plain; version=0.0.4".data
  | CT_AUDIO_MPEG => "audio/mpeg".data
  | CT_AUDIO_OGG => "audio/ogg".data
  | CT_VIDEO_MP4 => "video/mp4".data
  | CT_APPLICATION_PDF => "application/pdf".data
  | CT_APPLICATION_ZIP => "application/zip".data
  | CT_TEXT_PLAIN => "text/plain; charset=utf-8".data

/-- Embedding of `web_response_code_to_string` (lines 822-975). -/
def web_response_code_to_string (code : Int) : List Char :=
  if code = 100 then "Continue".data
  else if code = 101 then "Switching Protocols".data
  else if code = 102 then "Processing".data
  else if code = 103 then "Early Hints".data
  else if code = 200 then "OK".data
  else if code = 201 then "Created".data
  else if code = 202 then "Accepted".data
  else if code = 203 then "Non-Authoritative Information".data
  else if code = 204 then "No Content".data
  else if code = 205 then "Reset Content".data
  else if code = 206 then "Partial Content".data
  else if code = 207 then "Multi-Status".data
  else if code = 208 then "Already Reported".data
  else if code = 226 then "IM Used".data
  else if code = 300 then "Multiple Choices".data
  else if code = 301 then "Moved Permanently".data
  else if code = 302 then "Found".data
  else if code = 303 then "See Other".data
  else if code = 304 then "Not Modified".data
  else if code = 305 then "Use Proxy".data
  else if code = 306 then "Switch Proxy".data
  else if code = 307 then "Temporary Redirect".data
  else if code = 308 then "Permanent Redirect".data
  else if code = 400 then "Bad Request".data
  else if code = 401 then "Unauthorized".data
  else if code = 402 then "Payment Required".data
  else if code = 403 then "Forbidden".data
  else if code = 404 then "Not Found".data
  else if code = 405 then "Method Not Allowed".data
  else if code = 406 then "Not Acceptable".data
  else if code = 407 then "Proxy Authentication Required".data
  else if code = 408 then "Request Timeout".data
  else if code = 409 then "Conflict".data
  else if code = 410 then "Gone".data
  else if code = 411 then "Length Required".data
  else if code = 412 then "Precondition Failed".data
  else if code = 413 then "Payload Too Large".data
  else if code = 414 then "URI Too Long".data
  else if code = 415 then "Unsupported Media Type".data
  else if code = 416 then "Range Not Satisfiable".data
  else if code = 417 then "Expectation Failed".data
  else if code = 418 then "I'm a teapot".data
  else if code = 421 then "Misdirected Request".data
  else if code = 422 then "Unprocessable Entity".data
  else if code = 423 then "Locked".data
  else if code = 424 then "Failed Dependency".data
  else if code = 425 then "Too Early".data
  else if code = 426 then "Upgrade Required".data
  else if code = 428 then "Precondition Required".data
  else if code = 429 then "Too Many Requests".data
  else if code = 431 then "Request Header Fields Too Large".data
  else if code = 451 then "Unavailable For Legal Reasons".data
  else if code = 499 then "Client Closed Request".data
  else if code = 500 then "Internal Server Error".data
  else if code = 501 then "Not Implemented".data
  else if code = 502 then "Bad Gateway".data
  else if code = 503 then "Service Unavailable".data
  else if code = 504 then "Gateway Timeout".data
  else if code = 505 then "HTTP Version Not Supported".data
  else if code = 506 then "Variant Also Negotiates".data
  else if code = 507 then "Insufficient Storage".data
  else if code = 508 then "Loop Detected".data
  else if code = 510 then "Not Extended".data
  else if code = 511 then "Network Authentication Required".data
  else if 100 ≤ code ∧ code < 200 then "Informational".data
  else if 200 ≤ code ∧ code < 300 then "Successful".data
  else if 300 ≤ code ∧ code < 400 then "Redirection".data
  else if 400 ≤ code ∧ code < 500 then "Client Error".data
  else if 500 ≤ code ∧ code < 600 then "Server Error".data
  else "Undefined Error".data

/-- The process-wide configuration read by the header builder:
`respect_web_browser_do_not_track_policy`, `web_x_frame_options` and the
`VERSION` string. -/
structure WebServerConfig where
  respectDnt : Bool
  xFrameOptions : Option (List Char)
  version : List Char
  deriving DecidableEq, Repr

def dataContentType (w : WebClient) : HTTP_CONTENT_TYPE :=
  ((w.response.data).map WebBuffer.contentType).getD CT_TEXT_PLAIN

def dataOptions (w : WebClient) : BufferOptions :=
  ((w.response.data).map WebBuffer.options).getD ⟨false, false⟩

def dataDate (w : WebClient) : Int := ((w.response.data).map WebBuffer.date).getD 0

def dataExpires (w : WebClient) : Int := ((w.response.data).map WebBuffer.expires).getD 0

/-- The status-line block (lines 1317-1342): for `HTTP_RESP_HTTPS_UPGRADE`
only status plus a `Location:` to the https URL; otherwise status,
`Connection`, `Server`, CORS, `Content-Type` and `Date`. `dateLine` is the
RFC-1123 rendering of `response.data->date` (strftime, passed in as an
oracle). -/
def http_header_first_block (w : WebClient) (cfg : WebServerConfig)
    (dateLine : List Char) : List Char :=
  if w.response.code = HTTP_RESP_HTTPS_UPGRADE then
    "HTTP/1.1 ".data ++ (toString w.response.code).data ++ " ".data
      ++ web_response_code_to_string w.response.code ++ "\r\n".data
      ++ "Location: https://".data ++ (w.server_host.getD [])
      ++ bufContent w.url_as_received ++ "\r\n".data
  else
    "HTTP/1.1 ".data ++ (toString w.response.code).data ++ " ".data
      ++ web_response_code_to_string w.response.code
      ++ "\r\nConnection: ".data
      ++ (if w.flags.keepalive then "keep-alive".data else "close".data)
      ++ "\r\nServer: Netdata Embedded HTTP Server ".data ++ cfg.version
      ++ "\r\nAccess-Control-Allow-Origin: ".data ++ (w.origin.getD "*".data)
      ++ "\r\nAccess-Control-Allow-Credentials: true".data
      ++ "\r\nContent-Type: ".data ++ web_content_type_to_string (dataContentType w)
      ++ "\r\nDate: ".data ++ dateLine ++ "\r\n".data

/-- The optional `X-Frame-Options` line (lines 1344-1345). -/
def http_header_xframe (cfg : WebServerConfig) : List Char :=
  match cfg.xFrameOptions with
  | some x => "X-Frame-Options: ".data ++ x ++ "\r\n".data
  | none => []

/-- The `Tk:` tracking line (lines 1347-1361). -/
def http_header_tk_block (w : WebClient) (cfg : WebServerConfig) : List Char :=
  if w.response.has_cookies then
    if cfg.respectDnt then "Tk: T;cookies\r\n".data else []
  else
    if cfg.respectDnt then
      if w.flags.trackingRequired then "Tk: T;cookies\r\n".data else "Tk: N\r\n".data
    else []

/-- The OPTIONS preflight block or the `Cache-Control`/`Expires` block
(lines 1363-1376). `edate` is the RFC-1123 rendering of
`response.data->expires`. -/
def http_header_cache_block (w : WebClient) (edate : List Char) : List Char :=
  if w.mode = .OPTIONS then
    ("Access-Control-Allow-Methods: GET, OPTIONS\r\n"
      ++ "Access-Control-Allow-Headers: accept, x-requested-with, origin, content-type, cookie, pragma, cache-control, x-auth-token\r\n"
      ++ "Access-Control-Max-Age: 1209600\r\n").data
  else
    "Cache-Control: ".data
      ++ (if (dataOptions w).noCacheable then
            "no-cache, no-store, must-revalidate\r\nPragma: no-cache".data
          else "public".data)
      ++ "\r\nExpires: ".data ++ edate ++ "\r\n".data

def content_length_line (n : Nat) : List Char :=
  "Content-Length: ".data ++ (toString n).data ++ "\r\n".data

/-- The transfer-method section of `web_client_build_http_header`
(lines 1382-1397), as the list of lines it appends plus the flags it leaves:
`Content-Encoding: gzip` when `zoutput`; then either
`Transfer-Encoding: chunked` (CHUNKED_TRANSFER set), or `Content-Length`
when a length is known (`data->len`, else `rlen`), or — neither length known —
nothing, with keep-alive disabled. -/
def web_client_build_http_header_framing (w : WebClient) :
    List (List Char) × WebClientFlags :=
  let gz : List (List Char) :=
    if w.response.zoutput then ["Content-Encoding: gzip\r\n".data] else []
  if w.flags.chunkedTransfer then
    (gz ++ ["Transfer-Encoding: chunked\r\n".data], w.flags)
  else if bufLen w.response.data ≠ 0 ∨ w.response.rlen ≠ 0 then
    let n := if bufLen w.response.data ≠ 0 then bufLen w.response.data else w.response.rlen
    (gz ++ [content_length_line n], w.flags)
  else
    (gz, { w.flags with keepalive := false })

/-- The metadata steps at the top of `web_client_build_http_header`
(lines 1288-1297): non-OK responses become non-cacheable, `date` defaults to
`now_realtime_sec()`, and `expires` defaults to `date` plus 86400 (plus 0 when
the buffer is non-cacheable). -/
def web_client_build_http_header_dates (w : WebClient) (now : Int) : WebClient :=
  let w := if w.response.code ≠ HTTP_RESP_OK then
             { w with response := { w.response with
                 data := w.response.data.map buffer_no_cacheable } }
           else w
  let w := if dataDate w = 0 then
             { w with response := { w.response with
                 data := w.response.data.map (fun (d : WebBuffer) => { d with date := now }) } }
           else w
  if dataExpires w = 0 then
    { w with response := { w.response with
        data := w.response.data.map (fun (d : WebBuffer) =>
          { d with expires := d.date
              + (if d.options.noCacheable then 0 else 86400) }) } }
  else w

/-- The emission part of `web_client_build_http_header` (lines 1299-1401):
the status-line block (status only, or status plus `Location:` for the
`HTTPS_UPGRADE` sentinel, whose code is rewritten to 301), the `X-Frame-Options`,
`Tk:` and OPTIONS/cache blocks, the custom headers copied from
`response.header`, the transfer-method section and the final CRLF, all
appended to `header_output`. The code rewrite is applied here together with
the final state (none of the intervening blocks reads `response.code`). -/
def web_client_build_http_header_emit (w : WebClient) (cfg : WebServerConfig)
    (fmtDate : Int → List Char) : WebClient :=
  { w with
      flags := (web_client_build_http_header_framing w).2,
      response := { w.response with
        code := if w.response.code = HTTP_RESP_HTTPS_UPGRADE then HTTP_RESP_MOVED_PERM
                else w.response.code,
        header_output := w.response.header_output.map (fun b => buffer_strcat b
          (http_header_first_block w cfg (fmtDate (dataDate w))
            ++ (http_header_xframe cfg ++ http_header_tk_block w cfg
                ++ http_header_cache_block w (fmtDate (dataExpires w)))
            ++ bufContent w.response.header
            ++ (web_client_build_http_header_framing w).1.flatten
            ++ "\r\n".data)) } }

/-- Embedding of `web_client_build_http_header` (lines 1287-1401). `now` is
`now_realtime_sec()`; `fmtDate` is the strftime RFC-1123 date renderer
(an oracle, as formatting is irrelevant to the engine). -/
def web_client_build_http_header (w : WebClient) (now : Int) (cfg : WebServerConfig)
    (fmtDate : Int → List Char) : WebClient :=
  web_client_build_http_header_emit (web_client_build_http_header_dates w now) cfg
    fmtDate

/-! ## Claim-side formulations and sample states -/

/-- Claim-side formulation: the last `'/'`-separated component of a path (the
whole path when it contains no slash). -/
def lastSlashComponentSpec (p : List Char) : List Char :=
  (suffix_after_last '/' p).getD p

/-- Claim-side formulation: the substring after the last `'.'` of a filename,
`none` when there is no dot. -/
def lastDotSuffixSpec (f : List Char) : Option (List Char) :=
  if '.' ∈ f then some ((f.reverse.takeWhile (fun c => c ≠ '.')).reverse) else none

/-- Invariant 2 of spec §3 as a boolean:
`zoutput ⇒ zinitialized ⇒ CHUNKED_TRANSFER`. -/
def zchainB (w : WebClient) : Bool :=
  (!w.response.zoutput || w.response.zinitialized)
    && (!w.response.zinitialized || w.flags.chunkedTransfer)

def sampleBuffer (a : Nat) : WebBuffer :=
  { alloc := a, content := [], contentType := CT_TEXT_PLAIN,
    options := ⟨false, false⟩, date := 0, expires := 0 }

/-- A live connected client with all six buffers allocated. -/
def sampleClient : WebClient :=
  { webClientZero with
    id := 7, use_count := 2, ifd := 3, ofd := 3, ssl := 5,
    stats_memory_accounting := 11,
    flags := { flagsZero with keepalive := true, waitReceive := true },
    url_as_received := some { sampleBuffer 1 with content := "/path/to/file?after=0".data },
    url_path_decoded := some (sampleBuffer 2),
    url_query_string_decoded := some (sampleBuffer 3),
    response := { webResponseZero with
      data := some (sampleBuffer 4), header := some (sampleBuffer 5),
      header_output := some (sampleBuffer 6) } }

def sampleFsFile : FsProbe :=
  { findOk := true, isDir := false, setsTrailingSlash := false,
    resolved := "/usr/share/netdata/web/index.html".data,
    openOk := true, openBusy := false, fd := 9, fileSize := 120, mtime := 100 }

def sampleFsDir : FsProbe := { sampleFsFile with isDir := true }

def sampleConfig : WebServerConfig :=
  { respectDnt := false, xFrameOptions := none, version := "v1.42.0".data }

/-- A 404 response about to have its header built, with fresh date metadata. -/
def clientC8 : WebClient :=
  { webClientZero with
    response := { webResponseZero with
      code := HTTP_RESP_NOT_FOUND, data := some (sampleBuffer 4) } }

/-! ## Helper lemmas -/

theorem takeWhile_append_all {p : Char → Bool} (l1 l2 : List Char)
    (h : ∀ x ∈ l1, p x) : (l1 ++ l2).takeWhile p = l1 ++ l2.takeWhile p := by
  induction l1 with
  | nil => simp
  | cons a t ih =>
    have ha : p a := h a (by simp)
    simp only [List.cons_append, List.takeWhile_cons_of_pos ha, List.cons.injEq, true_and]
    exact ih (fun x hx => h x (by simp [hx]))

theorem takeWhile_append_stop {p : Char → Bool} (l1 l2 : List Char)
    (h : ∃ x ∈ l1, ¬ p x) : (l1 ++ l2).takeWhile p = l1.takeWhile p := by
  induction l1 with
  | nil => simp at h
  | cons a t ih =>
    by_cases ha : p a
    · simp only [List.cons_append, List.takeWhile_cons_of_pos ha, List.cons.injEq, true_and]
      apply ih
      rcases h with ⟨x, hx, hpx⟩
      rcases List.mem_cons.mp hx with rfl | hxt
      · exact absurd ha hpx
      · exact ⟨x, hxt, hpx⟩
    · simp [List.takeWhile_cons_of_neg ha]

theorem takeWhile_all {p : Char → Bool} (l : List Char) (h : ∀ x ∈ l, p x) :
    l.takeWhile p = l := by
  have := takeWhile_append_all (p := p) l [] h
  simpa using this

theorem suffix_after_last_spec (c : Char) (l : List Char) :
    suffix_after_last c l =
      if c ∈ l then some ((l.reverse.takeWhile (fun x => x ≠ c)).reverse) else none := by
  induction l with
  | nil => simp [suffix_after_last]
  | cons x rest ih =>
    by_cases hc : c ∈ rest
    · have hstop : ((x :: rest).reverse).takeWhile (fun y => decide (y ≠ c))
          = rest.reverse.takeWhile (fun y => decide (y ≠ c)) := by
        rw [List.reverse_cons]
        exact takeWhile_append_stop rest.reverse [x] ⟨c, by simp [hc], by simp⟩
      simp only [suffix_after_last, ih, if_pos hc,
                 if_pos (List.mem_cons_of_mem x hc), hstop]
    · by_cases hx : x = c
      · subst hx
        have hall : ∀ y ∈ rest.reverse, (fun z => decide (z ≠ x)) y = true := by
          intro y hy
          simp only [decide_eq_true_eq]
          intro hyx
          exact hc (hyx ▸ (List.mem_reverse.mp hy))
        have happ : ((x :: rest).reverse).takeWhile (fun y => decide (y ≠ x))
            = rest.reverse ++ ([x].takeWhile (fun y => decide (y ≠ x))) := by
          rw [List.reverse_cons]
          exact takeWhile_append_all rest.reverse [x] hall
        have hxx : ([x].takeWhile (fun y => decide (y ≠ x))) = ([] : List Char) := by
          simp
        simp only [suffix_after_last, ih, if_neg hc, if_pos rfl,
                   if_pos (List.mem_cons_self x rest), happ, hxx,
                   List.append_nil, List.reverse_reverse]
        simp
      · have hnc : c ∉ x :: rest := by
          intro hmem
          rcases List.mem_cons.mp hmem with h1 | h2
          · exact hx h1.symm
          · exact hc h2
        simp only [suffix_after_last, ih, if_neg hc, if_neg hnc,
                   if_neg (fun h => hx h)]

theorem suffix_after_last_none_iff (c : Char) (l : List Char) :
    suffix_after_last c l = none ↔ c ∉ l := by
  rw [suffix_after_last_spec]
  by_cases h : c ∈ l <;> simp [h]

theorem url_last_component_spec (p : List Char) :
    url_last_component p = lastSlashComponentSpec p := by
  unfold url_last_component lastSlashComponentSpec
  rw [suffix_after_last_spec]
  by_cases h : '/' ∈ p
  · simp [h]
  · rw [if_neg h]
    have hall : ∀ x ∈ p.reverse, (fun y => decide (y ≠ '/')) x = true := by
      intro y hy
      simp only [decide_eq_true_eq]
      intro hy2
      exact h (hy2 ▸ (List.mem_reverse.mp hy))
    rw [takeWhile_all p.reverse hall, List.reverse_reverse]
    rfl

theorem strchr_pos_none_iff (l : List Char) (c : Char) :
    strchr_pos l c = none ↔ c ∉ l := by
  induction l with
  | nil => simp [strchr_pos]
  | cons x xs ih =>
    by_cases hx : x = c
    · subst hx; simp [strchr_pos]
    · cases h : strchr_pos xs c with
      | none =>
        have hm := ih.mp h
        have hcx : ¬ c = x := fun h1 => hx h1.symm
        simp [strchr_pos, if_neg hx, h, hm, hcx]
      | some j =>
        have hm : c ∈ xs := by
          by_contra hcm
          rw [ih.mpr hcm] at h
          exact Option.noConfusion h
        simp [strchr_pos, if_neg hx, h, hm]

theorem strchr_pos_some (l : List Char) (c : Char) (i : Nat)
    (h : strchr_pos l c = some i) :
    l.take i = l.takeWhile (fun x => x ≠ c) ∧
    l.drop i = l.dropWhile (fun x => x ≠ c) := by
  induction l generalizing i with
  | nil => simp [strchr_pos] at h
  | cons x xs ih =>
    simp only [strchr_pos] at h
    by_cases hx : x = c
    · rw [if_pos hx] at h
      cases h
      subst hx
      constructor
      · simp [List.takeWhile_cons]
      · simp [List.dropWhile_cons]
    · rw [if_neg hx] at h
      cases hj : strchr_pos xs c with
      | none => rw [hj] at h; exact absurd h (by simp)
      | some j =>
        rw [hj] at h
        simp only [Option.some.injEq] at h
        subst h
        constructor
        · simp [List.takeWhile_cons, hx, (ih j hj).1]
        · simp [List.dropWhile_cons, hx, (ih j hj).2]

theorem web_client_valid_method_fst (w : WebClient) (s : List Char) (r : Bool) :
    (web_client_valid_method w s r).1 = valid_method_rest s r := by
  unfold web_client_valid_method valid_method_rest
  split_ifs <;> rfl

theorem web_client_valid_method_snd_false (w : WebClient) (s : List Char) :
    ((web_client_valid_method w s false).2).header_parse_tries = w.header_parse_tries ∧
    ((web_client_valid_method w s false).2).header_parse_last_size
      = w.header_parse_last_size ∧
    ((web_client_valid_method w s false).2).flags = w.flags ∧
    ((web_client_valid_method w s false).2).response = w.response := by
  unfold web_client_valid_method
  split_ifs <;> simp_all

theorem validate_tail_first_incomplete (u : WebClient) (buf : List Char)
    (d : DeepParseOutcome)
    (hm : (valid_method_rest buf false).isSome = true)
    (hx : (match after_crlfcrlf buf with
           | some rest => rest.isEmpty
           | none => true) = true) :
    (http_request_validate_tail u false buf false d).1 = HTTP_VALIDATION.INCOMPLETE ∧
    ((http_request_validate_tail u false buf false d).2).header_parse_tries
      = u.header_parse_tries ∧
    ((http_request_validate_tail u false buf false d).2).flags.waitReceive = true ∧
    ((http_request_validate_tail u false buf false d).2).response = u.response := by
  unfold http_request_validate_tail
  rcases hvm : web_client_valid_method u buf false with ⟨o, u2⟩
  have ho : o = valid_method_rest buf false := by
    rw [← web_client_valid_method_fst u buf false, hvm]
  have hsnd := web_client_valid_method_snd_false u buf
  rw [hvm] at hsnd
  have ht : u2.header_parse_tries = u.header_parse_tries := hsnd.1
  have hr : u2.response = u.response := hsnd.2.2.2
  rcases hval : valid_method_rest buf false with _ | rest0
  · rw [hval] at ho; subst ho; rw [hval] at hm; simp at hm
  · rw [hval] at ho
    subst ho
    cases hac : after_crlfcrlf buf with
    | none => exact ⟨rfl, ht, rfl, hr⟩
    | some rest =>
      rw [hac] at hx
      have hrest : rest = [] := List.isEmpty_iff.mp hx
      subst hrest
      exact ⟨rfl, ht, rfl, hr⟩

theorem http_request_validate_def (m : Nat) (w : WebClient) (sr uc : Bool)
    (d : DeepParseOutcome) :
    http_request_validate m w sr uc d =
      http_request_validate_core m
        { w with header_parse_tries := w.header_parse_tries + 1,
                 header_parse_last_size := (bufContent w.response.data).length }
        sr uc d (bufContent w.response.data) := rfl

theorem validate_core_later_incomplete (m : Nat) (w : WebClient) (sr : Bool)
    (d : DeepParseOutcome) (buf : List Char)
    (h1 : 1 < w.header_parse_tries) (h2 : w.header_parse_tries ≤ m) :
    http_request_validate_core m w sr false d buf =
      (HTTP_VALIDATION.INCOMPLETE, w) := by
  unfold http_request_validate_core
  rw [if_pos h1, if_pos (show (!false) = true from rfl), if_neg (by omega)]

theorem validate_core_toomany (m : Nat) (w : WebClient) (sr : Bool)
    (d : DeepParseOutcome) (buf : List Char)
    (h1 : 1 < w.header_parse_tries) (h2 : m < w.header_parse_tries) :
    http_request_validate_core m w sr false d buf =
      (HTTP_VALIDATION.TOO_MANY_READ_RETRIES,
       { w with header_parse_tries := 0, header_parse_last_size := 0,
                flags := { w.flags with waitReceive := false } }) := by
  unfold http_request_validate_core
  rw [if_pos h1, if_pos (show (!false) = true from rfl), if_pos h2]

theorem validate_core_first (m : Nat) (w : WebClient) (sr : Bool) (uc : Bool)
    (d : DeepParseOutcome) (buf : List Char) (h0 : w.header_parse_tries ≤ 1) :
    http_request_validate_core m w sr uc d buf =
      http_request_validate_tail w sr buf uc d := by
  unfold http_request_validate_core
  rw [if_neg (by omega)]

theorem setData_tries (w : WebClient) (l : List Char) :
    (set_response_data_content w l).header_parse_tries = w.header_parse_tries := rfl

theorem setData_content (w : WebClient) (l : List Char)
    (h : w.response.data.isSome = true) :
    bufContent (set_response_data_content w l).response.data = l := by
  obtain ⟨b, hb⟩ := Option.isSome_iff_exists.mp h
  simp [set_response_data_content, bufContent, hb]

theorem validate_call0 (m : Nat) (bufs : Nat → List Char) (w : WebClient)
    (h0 : w.header_parse_tries = 0) (hdata : w.response.data.isSome = true)
    (hm : (valid_method_rest (bufs 0) false).isSome = true)
    (hx : (match after_crlfcrlf (bufs 0) with
           | some rest => rest.isEmpty
           | none => true) = true) :
    validate_call_result m bufs w 0 = HTTP_VALIDATION.INCOMPLETE ∧
    (validate_trace m bufs w 1).header_parse_tries = 1 := by
  have hbuf : bufContent (set_response_data_content w (bufs 0)).response.data = bufs 0 :=
    setData_content w (bufs 0) hdata
  constructor
  · unfold validate_call_result
    rw [show validate_trace m bufs w 0 = w from rfl]
    rw [http_request_validate_def]
    rw [validate_core_first _ _ _ _ _ _ (by simp [set_response_data_content, h0])]
    rw [hbuf]
    exact (validate_tail_first_incomplete _ _ _ hm hx).1
  · show (http_request_validate m
        (set_response_data_content (validate_trace m bufs w 0) (bufs 0))
        false false .incomplete).2.header_parse_tries = 1
    rw [show validate_trace m bufs w 0 = w from rfl]
    rw [http_request_validate_def]
    rw [validate_core_first _ _ _ _ _ _ (by simp [set_response_data_content, h0])]
    rw [hbuf]
    rw [(validate_tail_first_incomplete _ (bufs 0) DeepParseOutcome.incomplete hm hx).2.1]
    simp [set_response_data_content, h0]

theorem validate_call_later_incomplete (m : Nat) (bufs : Nat → List Char)
    (w : WebClient) (k : Nat) (hk : 1 ≤ k) (hkm : k < m)
    (htr : (validate_trace m bufs w k).header_parse_tries = k) :
    validate_call_result m bufs w k = HTTP_VALIDATION.INCOMPLETE ∧
    (validate_trace m bufs w (k + 1)).header_parse_tries = k + 1 := by
  constructor
  · unfold validate_call_result
    rw [http_request_validate_def]
    rw [validate_core_later_incomplete _ _ _ _ _
        (by simp [set_response_data_content, htr]; omega)
        (by simp [set_response_data_content, htr]; omega)]
  · show (http_request_validate m
        (set_response_data_content (validate_trace m bufs w k) (bufs k))
        false false .incomplete).2.header_parse_tries = k + 1
    rw [http_request_validate_def]
    rw [validate_core_later_incomplete _ _ _ _ _
        (by simp [set_response_data_content, htr]; omega)
        (by simp [set_response_data_content, htr]; omega)]
    simp [set_response_data_content, htr]

theorem validate_call_toomany (m : Nat) (bufs : Nat → List Char)
    (w : WebClient) (k : Nat) (hk : 1 ≤ k) (hkm : m ≤ k)
    (htr : (validate_trace m bufs w k).header_parse_tries = k) :
    validate_call_result m bufs w k = HTTP_VALIDATION.TOO_MANY_READ_RETRIES ∧
    (validate_trace m bufs w (k + 1)).header_parse_tries = 0 ∧
    (validate_trace m bufs w (k + 1)).header_parse_last_size = 0 ∧
    (validate_trace m bufs w (k + 1)).flags.waitReceive = false := by
  refine ⟨?_, ?_, ?_, ?_⟩
  · unfold validate_call_result
    rw [http_request_validate_def,
        validate_core_toomany _ _ _ _ _
          (by simp [set_response_data_content, htr]; omega)
          (by simp [set_response_data_content, htr]; omega)]
  · show (http_request_validate m
        (set_response_data_content (validate_trace m bufs w k) (bufs k))
        false false .incomplete).2.header_parse_tries = 0
    rw [http_request_validate_def,
        validate_core_toomany _ _ _ _ _
          (by simp [set_response_data_content, htr]; omega)
          (by simp [set_response_data_content, htr]; omega)]
  · show (http_request_validate m
        (set_response_data_content (validate_trace m bufs w k) (bufs k))
        false false .incomplete).2.header_parse_last_size = 0
    rw [http_request_validate_def,
        validate_core_toomany _ _ _ _ _
          (by simp [set_response_data_content, htr]; omega)
          (by simp [set_response_data_content, htr]; omega)]
  · show (http_request_validate m
        (set_response_data_content (validate_trace m bufs w k) (bufs k))
        false false .incomplete).2.flags.waitReceive = false
    rw [http_request_validate_def,
        validate_core_toomany _ _ _ _ _
          (by simp [set_response_data_content, htr]; omega)
          (by simp [set_response_data_content, htr]; omega)]

theorem validate_trace_tries (m : Nat) (bufs : Nat → List Char) (w : WebClient)
    (h0 : w.header_parse_tries = 0) (hdata : w.response.data.isSome = true)
    (hm : (valid_method_rest (bufs 0) false).isSome = true)
    (hx : (match after_crlfcrlf (bufs 0) with
           | some rest => rest.isEmpty
           | none => true) = true) :
    ∀ k, 1 ≤ k → k ≤ m → (validate_trace m bufs w k).header_parse_tries = k := by
  intro k
  induction k with
  | zero => intro h; omega
  | succ n ih =>
    intro _ h2
    rcases Nat.eq_zero_or_pos n with hn | hn
    · subst hn
      exact (validate_call0 m bufs w h0 hdata hm hx).2
    · have htr := ih hn (by omega)
      exact (validate_call_later_incomplete m bufs w n hn (by omega) htr).2

/-! ## Claim theorems -/

/-- Claim C2: on a client starting a fresh request (`header_parse_tries = 0`),
over any sequence of `http_request_validate` calls in which every call
observes an incomplete request (and whose first call sees a recognised method
with no data past an end-of-headers marker), the validator returns
`HTTP_VALIDATION_INCOMPLETE` on each of the first `HTTP_REQ_MAX_HEADER_FETCH_TRIES`
calls, and returns `HTTP_VALIDATION_TOO_MANY_READ_RETRIES` exactly on the call
where the incremented `header_parse_tries` first exceeds the bound; that call
resets `header_parse_tries` and `header_parse_last_size` to 0 and disables the
WAIT_RECEIVE flag. -/
theorem http_request_validate_slow_client_retries
    (m : Nat) (bufs : Nat → List Char) (w : WebClient)
    (hm1 : 1 ≤ m)
    (h0 : w.header_parse_tries = 0)
    (hdata : w.response.data.isSome = true)
    (hmethod : (valid_method_rest (bufs 0) false).isSome = true)
    (hexcess : (match after_crlfcrlf (bufs 0) with
                | some rest => rest.isEmpty
                | none => true) = true) :
    (∀ k, k < m → validate_call_result m bufs w k = HTTP_VALIDATION.INCOMPLETE) ∧
    validate_call_result m bufs w m = HTTP_VALIDATION.TOO_MANY_READ_RETRIES ∧
    (validate_trace m bufs w (m + 1)).header_parse_tries = 0 ∧
    (validate_trace m bufs w (m + 1)).header_parse_last_size = 0 ∧
    (validate_trace m bufs w (m + 1)).flags.waitReceive = false := by
  have htr := validate_trace_tries m bufs w h0 hdata hmethod hexcess
  have htm := validate_call_toomany m bufs w m hm1 le_rfl (htr m hm1 le_rfl)
  refine ⟨?_, htm.1, htm.2.1, htm.2.2.1, htm.2.2.2⟩
  intro k hk
  rcases Nat.eq_zero_or_pos k with rfl | hk1
  · exact (validate_call0 m bufs w h0 hdata hmethod hexcess).1
  · exact (validate_call_later_incomplete m bufs w k hk1 hk
      (htr k hk1 (Nat.le_of_lt hk))).1

/-- Witness for C2 at a concrete slow client: bound 2, buffer stuck at
`"GET /x"`; calls 1 and 2 are INCOMPLETE, call 3 is TOO_MANY_READ_RETRIES
with the counters reset and receive-wait disarmed. -/
theorem http_request_validate_slow_client_retries_witness :
    (∀ k, k < 2 →
      validate_call_result 2 (fun _ => "GET /x".data) sampleClient k
        = HTTP_VALIDATION.INCOMPLETE) ∧
    validate_call_result 2 (fun _ => "GET /x".data) sampleClient 2
      = HTTP_VALIDATION.TOO_MANY_READ_RETRIES ∧
    (validate_trace 2 (fun _ => "GET /x".data) sampleClient 3).header_parse_tries = 0 ∧
    (validate_trace 2 (fun _ => "GET /x".data) sampleClient 3).header_parse_last_size
      = 0 ∧
    (validate_trace 2 (fun _ => "GET /x".data) sampleClient 3).flags.waitReceive
      = false :=
  http_request_validate_slow_client_retries 2 (fun _ => "GET /x".data) sampleClient
    (by decide) (by decide) (by decide) (by decide) (by decide)

/-- Claim C1: with dashboard access allowed, `mysendfile` consults the
filesystem (`find_filename_to_serve`/`open`) exactly when the filename — after
skipping leading slashes — has only characters in `[A-Za-z0-9/._-]` and no
`".."` substring; otherwise it returns HTTP 400 without any stat or open. -/
theorem mysendfile_filename_validation (w : WebClient) (filename : List Char)
    (fs : FsProbe) :
    ((mysendfile w filename true fs).statAttempted
       = !((filename.dropWhile (fun c => c = '/')).any mysendfile_invalid_char
           || contains_dot_dot (filename.dropWhile (fun c => c = '/')))) ∧
    (((filename.dropWhile (fun c => c = '/')).any mysendfile_invalid_char
        || contains_dot_dot (filename.dropWhile (fun c => c = '/'))) = true →
      (mysendfile w filename true fs).code = HTTP_RESP_BAD_REQUEST ∧
      (mysendfile w filename true fs).statAttempted = false ∧
      (mysendfile w filename true fs).openAttempted = false) := by
  simp only [mysendfile, Bool.not_true]
  by_cases h1 : (filename.dropWhile (fun c => c = '/')).any mysendfile_invalid_char
  · simp [h1]
  · by_cases h2 : contains_dot_dot (filename.dropWhile (fun c => c = '/'))
    · simp [h1, h2]
    · simp only [h1, h2, Bool.or_self, Bool.not_false, Bool.false_eq_true, if_false]
      constructor
      · split_ifs <;> rfl
      · intro hcon
        exact absurd hcon (by simp [h1, h2])

/-- Witness for C1: `/foo/../etc/passwd` is refused with 400 before any
filesystem access, while `/index.html` passes both checks and reaches
`find_filename_to_serve`. -/
theorem mysendfile_filename_validation_witness :
    (mysendfile sampleClient "/foo/../etc/passwd".data true sampleFsFile).code
      = HTTP_RESP_BAD_REQUEST ∧
    (mysendfile sampleClient "/index.html".data true sampleFsFile).statAttempted
      = true := by
  constructor
  · exact ((mysendfile_filename_validation sampleClient "/foo/../etc/passwd".data
      sampleFsFile).2 (by decide)).1
  · have h := (mysendfile_filename_validation sampleClient "/index.html".data
      sampleFsFile).1
    rw [h]
    decide

theorem dropWhile_eq_nil_of_not_mem (l : List Char) (c : Char) (h : c ∉ l) :
    l.dropWhile (fun x => x ≠ c) = [] := by
  induction l with
  | nil => rfl
  | cons x xs ih =>
    have hx : x ≠ c := fun he => h (he ▸ List.mem_cons_self x xs)
    rw [List.dropWhile_cons, if_pos (by simp [hx])]
    exact ih (fun hm => h (List.mem_cons_of_mem x hm))

/-- Claim C5: when the resolved static path is a directory and the trailing
slash flag is not set (neither on the client nor raised by the resolver),
`mysendfile` answers 301 without opening the file, and appends to
`response.header` the line `Location: S/⟨query⟩CRLF` where `S` is the last
`'/'`-separated component of `url_as_received` before the `'?'` and `⟨query⟩`
is the query string from its `'?'` (empty when the URL has none). -/
theorem mysendfile_directory_redirect (w : WebClient) (filename : List Char)
    (fs : FsProbe)
    (hval : (filename.dropWhile (fun c => c = '/')).any mysendfile_invalid_char = false)
    (hdd : contains_dot_dot (filename.dropWhile (fun c => c = '/')) = false)
    (hfind : fs.findOk = true)
    (hdir : fs.isDir = true)
    (hsts : fs.setsTrailingSlash = false)
    (hflag : w.flags.pathHasTrailingSlash = false)
    (hurl : (bufContent w.url_as_received).head? = some '/')
    (hhdr : w.response.header.isSome = true) :
    (mysendfile w filename true fs).code = HTTP_RESP_MOVED_PERM ∧
    (mysendfile w filename true fs).openAttempted = false ∧
    bufContent (mysendfile w filename true fs).w.response.header =
      bufContent w.response.header ++ "Location: ".data
        ++ lastSlashComponentSpec
             ((bufContent w.url_as_received).takeWhile (fun c => c ≠ '?'))
        ++ "/".data ++ ((bufContent w.url_as_received).dropWhile (fun c => c ≠ '?'))
        ++ "\r\n".data := by
  have hsend : mysendfile w filename true fs =
      ⟨(append_slash_to_url_and_redirect w).1,
       (append_slash_to_url_and_redirect w).2, true, false⟩ := by
    simp only [mysendfile, Bool.not_true, Bool.false_eq_true, if_false, hval, hdd,
               hsts, hfind, hdir, hflag, Bool.not_false, Bool.and_self]
    simp
  obtain ⟨bh, hbh⟩ := Option.isSome_iff_exists.mp hhdr
  have hloc : ∀ loc : List Char,
      bufContent ((w.response.header.map (fun h => buffer_strcat h loc))) =
        bufContent w.response.header ++ loc := by
    intro loc
    simp [hbh, bufContent, buffer_strcat]
  refine ⟨?_, ?_, ?_⟩
  · rw [hsend]
    rfl
  · rw [hsend]
  · rw [hsend]
    show bufContent (append_slash_to_url_and_redirect w).1.response.header = _
    unfold append_slash_to_url_and_redirect
    cases hq : strchr_pos (bufContent w.url_as_received) '?' with
    | none =>
      have hnm : '?' ∉ bufContent w.url_as_received :=
        (strchr_pos_none_iff _ _).mp hq
      have htw : (bufContent w.url_as_received).takeWhile (fun x => x ≠ '?')
          = bufContent w.url_as_received := by
        apply takeWhile_all
        intro x hx
        simp only [decide_eq_true_eq]
        intro he
        exact hnm (he ▸ hx)
      have hdw : (bufContent w.url_as_received).dropWhile (fun x => x ≠ '?') = [] :=
        dropWhile_eq_nil_of_not_mem _ _ hnm
      simp only [hloc, hq, htw, hdw, url_last_component_spec, List.append_nil]
      simp [List.append_assoc]
    | some q =>
      have hq0 : 0 < q := by
        rcases hu : bufContent w.url_as_received with _ | ⟨c0, rest⟩
        · rw [hu] at hq; simp [strchr_pos] at hq
        · rw [hu] at hurl
          simp only [List.head?_cons, Option.some.injEq] at hurl
          rw [hu] at hq
          simp only [strchr_pos] at hq
          rw [if_neg (by rw [hurl]; decide)] at hq
          cases hj : strchr_pos rest '?' with
          | none => rw [hj] at hq; exact absurd hq (by simp)
          | some j =>
            rw [hj] at hq
            simp only [Option.some.injEq] at hq
            omega
      have hsp := strchr_pos_some _ _ _ hq
      simp only [hloc, hq, if_pos hq0, url_last_component_spec]
      rw [hsp.1, hsp.2]
      simp [List.append_assoc]

/-- Witness for C5: a directory hit under `/path/to/file?after=0` redirects
with `Location: file/?after=0`. -/
theorem mysendfile_directory_redirect_witness :
    (mysendfile sampleClient "/index.html".data true sampleFsDir).code
      = HTTP_RESP_MOVED_PERM ∧
    (mysendfile sampleClient "/index.html".data true sampleFsDir).openAttempted
      = false ∧
    bufContent
        (mysendfile sampleClient "/index.html".data true sampleFsDir).w.response.header
      = bufContent sampleClient.response.header ++ "Location: ".data
        ++ lastSlashComponentSpec
             ((bufContent sampleClient.url_as_received).takeWhile (fun c => c ≠ '?'))
        ++ "/".data
        ++ ((bufContent sampleClient.url_as_received).dropWhile (fun c => c ≠ '?'))
        ++ "\r\n".data :=
  mysendfile_directory_redirect sampleClient "/index.html".data sampleFsDir
    (by decide) (by decide) (by decide) (by decide) (by decide) (by decide)
    (by decide) (by decide)

theorem mime_lookup_mem (l : List (List Char × HTTP_CONTENT_TYPE)) (e : List Char) :
    (∀ ct, mime_lookup l e = some ct → (e, ct) ∈ l) ∧
    (mime_lookup l e = none → ∀ ct, (e, ct) ∉ l) := by
  induction l with
  | nil => simp [mime_lookup]
  | cons p rest ih =>
    rcases p with ⟨ext, ct0⟩
    by_cases he : e = ext
    · subst he
      constructor
      · intro ct hct
        simp [mime_lookup] at hct
        subst hct
        exact List.mem_cons_self _ _
      · intro hn
        simp [mime_lookup] at hn
    · constructor
      · intro ct hct
        simp only [mime_lookup, if_neg he] at hct
        exact List.mem_cons_of_mem _ (ih.1 ct hct)
      · intro hn ct hmem
        simp only [mime_lookup, if_neg he] at hn
        rcases List.mem_cons.mp hmem with h1 | h2
        · exact he (congrArg Prod.fst h1)
        · exact ih.2 hn ct h2

theorem mime_lookup_of_mem (e : List Char) (ct : HTTP_CONTENT_TYPE)
    (h : (e, ct) ∈ mime_types) : mime_lookup mime_types e = some ct := by
  simp only [mime_types, List.mem_cons, List.not_mem_nil, or_false,
             Prod.mk.injEq] at h
  rcases h with h|h|h|h|h|h|h|h|h|h|h|h|h|h|h|h|h|h|h <;>
    (obtain ⟨rfl, rfl⟩ := h; decide)

theorem suffix_after_last_eq_lastDot (f : List Char) :
    suffix_after_last '.' f = lastDotSuffixSpec f := by
  rw [suffix_after_last_spec]
  rfl

/-- Claim C10: `contenttype_for_filename` returns the content type of the
MIME-table entry whose extension equals — byte for byte, case-sensitively —
the substring after the last dot, and `CT_APPLICATION_OCTET_STREAM` whenever
the filename has no dot, ends with a dot, or the suffix matches no entry; in
particular an upper-case variant of a known extension is not matched. -/
theorem contenttype_for_filename_correct :
    (∀ f e ct, lastDotSuffixSpec f = some e → (e, ct) ∈ mime_types →
      contenttype_for_filename f = ct) ∧
    (∀ f e, lastDotSuffixSpec f = some e → (∀ ct, (e, ct) ∉ mime_types) →
      contenttype_for_filename f = CT_APPLICATION_OCTET_STREAM) ∧
    (∀ f, lastDotSuffixSpec f = none →
      contenttype_for_filename f = CT_APPLICATION_OCTET_STREAM) ∧
    contenttype_for_filename "index.HTML".data = CT_APPLICATION_OCTET_STREAM := by
  refine ⟨?_, ?_, ?_, by decide⟩
  · intro f e ct hs hm
    simp only [contenttype_for_filename, suffix_after_last_eq_lastDot, hs]
    have hl := mime_lookup_of_mem e ct hm
    by_cases he : e = []
    · subst he
      rw [show mime_lookup mime_types [] = none from by decide] at hl
      exact absurd hl (by simp)
    · rw [if_neg he, hl]
      rfl
  · intro f e hs hn
    simp only [contenttype_for_filename, suffix_after_last_eq_lastDot, hs]
    by_cases he : e = []
    · rw [if_pos he]
    · rw [if_neg he]
      cases hl : mime_lookup mime_types e with
      | none => rfl
      | some ct => exact absurd ((mime_lookup_mem mime_types e).1 ct hl) (hn ct)
  · intro f hs
    simp only [contenttype_for_filename, suffix_after_last_eq_lastDot, hs]

/-- Witness for C10: `dashboard.css` resolves to `CT_TEXT_CSS` through the
table. -/
theorem contenttype_for_filename_correct_witness :
    contenttype_for_filename "dashboard.css".data = CT_TEXT_CSS :=
  contenttype_for_filename_correct.1 "dashboard.css".data "css".data CT_TEXT_CSS
    (by decide) (by decide)

theorem ne_of_take_ne {l1 l2 : List Char} (n : Nat) (h : l1.take n ≠ l2.take n) :
    l1 ≠ l2 := fun he => h (he ▸ rfl)

theorem content_length_line_ne_gzip (n : Nat) :
    content_length_line n ≠ "Content-Encoding: gzip\r\n".data := by
  apply ne_of_take_ne 16
  rw [content_length_line, List.append_assoc,
      List.take_left' (show ("Content-Length: ".data).length = 16 from by decide)]
  decide

theorem content_length_line_ne_chunk (n : Nat) :
    content_length_line n ≠ "Transfer-Encoding: chunked\r\n".data := by
  apply ne_of_take_ne 16
  rw [content_length_line, List.append_assoc,
      List.take_left' (show ("Content-Length: ".data).length = 16 from by decide)]
  decide

theorem framing_congr (w1 w2 : WebClient)
    (hz : w1.response.zoutput = w2.response.zoutput)
    (hf : w1.flags = w2.flags)
    (hl : bufLen w1.response.data = bufLen w2.response.data)
    (hr : w1.response.rlen = w2.response.rlen) :
    web_client_build_http_header_framing w1 = web_client_build_http_header_framing w2 := by
  unfold web_client_build_http_header_framing
  rw [hz, hf, hl, hr]

theorem build_dates_preserves (w : WebClient) (now : Int) :
    (web_client_build_http_header_dates w now).response.zoutput = w.response.zoutput ∧
    (web_client_build_http_header_dates w now).flags = w.flags ∧
    bufLen (web_client_build_http_header_dates w now).response.data
      = bufLen w.response.data ∧
    (web_client_build_http_header_dates w now).response.rlen = w.response.rlen ∧
    (web_client_build_http_header_dates w now).response.header = w.response.header ∧
    (web_client_build_http_header_dates w now).response.header_output
      = w.response.header_output := by
  simp only [web_client_build_http_header_dates]
  split_ifs <;>
    cases hd : w.response.data <;>
      simp_all [bufLen, bufContent, buffer_no_cacheable]

theorem framing_dates (w : WebClient) (now : Int) :
    web_client_build_http_header_framing (web_client_build_http_header_dates w now)
      = web_client_build_http_header_framing w := by
  have h := build_dates_preserves w now
  exact framing_congr _ _ h.1 h.2.1 h.2.2.1 h.2.2.2.1

/-- Claim C3: the transfer-method section of the response header builder
appends `Content-Encoding: gzip` iff `zoutput`, `Transfer-Encoding: chunked`
iff the CHUNKED_TRANSFER flag, otherwise a `Content-Length: N` with
`N = data->len` when nonzero and `N = rlen` otherwise, and — when not chunked
and both lengths are zero — no Content-Length at all plus keep-alive disabled;
`web_client_build_http_header` installs exactly these lines and flags. -/
theorem build_http_header_transfer_framing (w : WebClient) (now : Int)
    (cfg : WebServerConfig) (fmtDate : Int → List Char) :
    ("Content-Encoding: gzip\r\n".data ∈ (web_client_build_http_header_framing w).1
      ↔ w.response.zoutput = true) ∧
    ("Transfer-Encoding: chunked\r\n".data ∈ (web_client_build_http_header_framing w).1
      ↔ w.flags.chunkedTransfer = true) ∧
    (w.flags.chunkedTransfer = false →
      (bufLen w.response.data ≠ 0 ∨ w.response.rlen ≠ 0) →
      content_length_line (if bufLen w.response.data ≠ 0 then bufLen w.response.data
        else w.response.rlen) ∈ (web_client_build_http_header_framing w).1) ∧
    (w.flags.chunkedTransfer = false → bufLen w.response.data = 0 →
      w.response.rlen = 0 →
      (∀ s ∈ (web_client_build_http_header_framing w).1,
        ("Content-Length: ".data).isPrefixOf s = false) ∧
      (web_client_build_http_header_framing w).2.keepalive = false) ∧
    ((web_client_build_http_header w now cfg fmtDate).flags
      = (web_client_build_http_header_framing w).2) ∧
    (w.response.header_output.isSome = true → ∃ pre,
      bufContent (web_client_build_http_header w now cfg fmtDate).response.header_output
        = bufContent w.response.header_output ++ pre
          ++ (web_client_build_http_header_framing w).1.flatten ++ "\r\n".data) := by
  refine ⟨?_, ?_, ?_, ?_, ?_, ?_⟩
  · unfold web_client_build_http_header_framing
    by_cases hz : w.response.zoutput <;>
      by_cases hc : w.flags.chunkedTransfer <;>
        by_cases hl : bufLen w.response.data ≠ 0 ∨ w.response.rlen ≠ 0 <;>
          simp_all [content_length_line_ne_gzip,
                    fun n => (content_length_line_ne_gzip n).symm]
  · unfold web_client_build_http_header_framing
    by_cases hz : w.response.zoutput <;>
      by_cases hc : w.flags.chunkedTransfer <;>
        by_cases hl : bufLen w.response.data ≠ 0 ∨ w.response.rlen ≠ 0 <;>
          simp_all [fun n => (content_length_line_ne_chunk n).symm]
  · intro hc hl
    unfold web_client_build_http_header_framing
    rw [hc]
    simp only [Bool.false_eq_true, if_false, if_pos hl]
    by_cases hz : w.response.zoutput <;> simp [hz]
  · intro hc hl hr
    unfold web_client_build_http_header_framing
    rw [hc]
    have hcon : ¬(bufLen w.response.data ≠ 0 ∨ w.response.rlen ≠ 0) := by
      simp [hl, hr]
    simp only [Bool.false_eq_true, if_false, if_neg hcon]
    by_cases hz : w.response.zoutput <;> simp [hz] <;> decide
  · show (web_client_build_http_header_emit
        (web_client_build_http_header_dates w now) cfg fmtDate).flags = _
    unfold web_client_build_http_header_emit
    simp only [framing_dates]
  · intro hout
    unfold web_client_build_http_header web_client_build_http_header_emit
    have hho := (build_dates_preserves w now).2.2.2.2.2
    obtain ⟨b, hb⟩ := Option.isSome_iff_exists.mp hout
    refine ⟨http_header_first_block (web_client_build_http_header_dates w now) cfg
          (fmtDate (dataDate (web_client_build_http_header_dates w now)))
        ++ (http_header_xframe cfg
            ++ http_header_tk_block (web_client_build_http_header_dates w now) cfg
            ++ http_header_cache_block (web_client_build_http_header_dates w now)
                 (fmtDate (dataExpires (web_client_build_http_header_dates w now))))
        ++ bufContent (web_client_build_http_header_dates w now).response.header, ?_⟩
    simp [hho, hb, bufContent, buffer_strcat, framing_dates, List.append_assoc]

/-- Witness for C3 at a concrete client: not chunked, empty body, `rlen = 9`,
so the framing section consists of exactly `Content-Length: 9`. -/
theorem build_http_header_transfer_framing_witness :
    content_length_line 9 ∈
      (web_client_build_http_header_framing
        { sampleClient with response := { sampleClient.response with rlen := 9 } }).1 :=
  (build_http_header_transfer_framing
      { sampleClient with response := { sampleClient.response with rlen := 9 } }
      0 sampleConfig (fun _ => [])).2.2.1 (by decide) (by decide)

/-- Counterexample to C8 as frozen: for a 404 response entering the builder
with `date = 0` and `expires = 0`, the builder sets `expires` equal to `date`
(the non-cacheable increment is 0), not `date + 86400` — so the "regardless of
the response code or cacheability" part of the claim fails. -/
theorem build_http_header_expires_counterexample :
    dataExpires (web_client_build_http_header clientC8 1000 sampleConfig (fun _ => []))
        = dataDate (web_client_build_http_header clientC8 1000 sampleConfig
            (fun _ => [])) ∧
    dataExpires (web_client_build_http_header clientC8 1000 sampleConfig (fun _ => []))
        ≠ dataDate (web_client_build_http_header clientC8 1000 sampleConfig
            (fun _ => [])) + 86400 := by
  constructor
  · decide
  · decide

/-- Claim C8 (amended): for a client entering `web_client_build_http_header`
with `response.data->date = 0` and `expires = 0`, the builder sets `date` to
the current wall-clock time, and sets `expires` to `date + 86400` when the
response is cacheable (code `HTTP_RESP_OK` and the `NO_CACHEABLE` option not
already set) but to `date + 0` otherwise (a non-OK code marks the buffer
non-cacheable first). -/
theorem build_http_header_date_expires (w : WebClient) (now : Int)
    (cfg : WebServerConfig) (fmtDate : Int → List Char) (b : WebBuffer)
    (hb : w.response.data = some b) (hd : b.date = 0) (he : b.expires = 0) :
    dataDate (web_client_build_http_header w now cfg fmtDate) = now ∧
    dataExpires (web_client_build_http_header w now cfg fmtDate)
      = now + (if b.options.noCacheable ∨ w.response.code ≠ HTTP_RESP_OK then 0
               else 86400) := by
  have hdd : dataDate (web_client_build_http_header w now cfg fmtDate)
      = dataDate (web_client_build_http_header_dates w now) := rfl
  have hde : dataExpires (web_client_build_http_header w now cfg fmtDate)
      = dataExpires (web_client_build_http_header_dates w now) := rfl
  rw [hdd, hde]
  simp only [web_client_build_http_header_dates]
  by_cases hc : w.response.code ≠ HTTP_RESP_OK
  · simp [hc, hb, hd, he, dataDate, dataExpires, buffer_no_cacheable]
  · by_cases hnc : b.options.noCacheable
    · simp [hc, hb, hd, he, hnc, dataDate, dataExpires]
    · simp [hc, hb, hd, he, hnc, dataDate, dataExpires]

/-- Witness for C8 (amended) at the concrete 404 client: date becomes 1000 and
expires 1000 + 0. -/
theorem build_http_header_date_expires_witness :
    dataDate (web_client_build_http_header clientC8 1000 sampleConfig (fun _ => []))
      = 1000 ∧
    dataExpires (web_client_build_http_header clientC8 1000 sampleConfig (fun _ => []))
      = 1000 + (if (sampleBuffer 4).options.noCacheable
                   ∨ clientC8.response.code ≠ HTTP_RESP_OK then 0 else 86400) :=
  build_http_header_date_expires clientC8 1000 sampleConfig (fun _ => [])
    (sampleBuffer 4) rfl rfl rfl

/-- Claim C4: after `web_client_request_done`, the six buffers are the same
allocations, still present and emptied; the mode is GET; the header parse
counters, `response.sent`, `response.rlen` and `response.code` are zero;
`response.zoutput` is off; WAIT_RECEIVE is armed and WAIT_SEND is not — the
client can serve another request without new allocations. -/
theorem web_client_request_done_resets (w : WebClient)
    (b1 b2 b3 b4 b5 b6 : WebBuffer)
    (h1 : w.url_as_received = some b1)
    (h2 : w.url_path_decoded = some b2)
    (h3 : w.url_query_string_decoded = some b3)
    (h4 : w.response.data = some b4)
    (h5 : w.response.header = some b5)
    (h6 : w.response.header_output = some b6) :
    (web_client_request_done w).url_as_received = some (buffer_reset b1) ∧
    (web_client_request_done w).url_path_decoded = some (buffer_reset b2) ∧
    (web_client_request_done w).url_query_string_decoded = some (buffer_reset b3) ∧
    (web_client_request_done w).response.data = some (buffer_reset b4) ∧
    (web_client_request_done w).response.header = some (buffer_reset b5) ∧
    (web_client_request_done w).response.header_output = some (buffer_reset b6) ∧
    (∀ b : WebBuffer, (buffer_reset b).alloc = b.alloc ∧ (buffer_reset b).content = []) ∧
    (web_client_request_done w).mode = WebClientMode.GET ∧
    (web_client_request_done w).header_parse_tries = 0 ∧
    (web_client_request_done w).header_parse_last_size = 0 ∧
    (web_client_request_done w).response.sent = 0 ∧
    (web_client_request_done w).response.rlen = 0 ∧
    (web_client_request_done w).response.code = 0 ∧
    (web_client_request_done w).response.zoutput = false ∧
    (web_client_request_done w).flags.waitReceive = true ∧
    (web_client_request_done w).flags.waitSend = false := by
  simp only [web_client_request_done, web_client_reset_allocations,
             web_client_reset_path_flags]
  split_ifs <;> simp_all [buffer_reset]

/-- Witness for C4 at the concrete allocated client. -/
theorem web_client_request_done_resets_witness :
    (web_client_request_done sampleClient).mode = WebClientMode.GET ∧
    (web_client_request_done sampleClient).url_as_received
      = some (buffer_reset { sampleBuffer 1 with
          content := "/path/to/file?after=0".data }) ∧
    (web_client_request_done sampleClient).flags.waitReceive = true := by
  have h := web_client_request_done_resets sampleClient
    { sampleBuffer 1 with content := "/path/to/file?after=0".data }
    (sampleBuffer 2) (sampleBuffer 3) (sampleBuffer 4) (sampleBuffer 5) (sampleBuffer 6)
    rfl rfl rfl rfl rfl rfl
  exact ⟨h.2.2.2.2.2.2.2.1, h.1, h.2.2.2.2.2.2.2.2.2.2.2.2.2.2.1⟩

/-- Counterexample to C6 as frozen: `web_client_reuse_from_cache` does not
leave every non-excepted field zero — it sets the two file descriptors to -1
(line 2340), and `ifd`/`ofd` are not among the claim's exceptions. -/
theorem web_client_reuse_ifd_not_zero :
    (web_client_reuse_from_cache sampleClient).ifd ≠ 0 ∧
    (web_client_reuse_from_cache sampleClient).ofd ≠ 0 := by
  constructor
  · decide
  · decide

/-- Claim C6 (amended): after `web_client_reuse_from_cache`, every field of
the client is zero except: the six buffer handles (same allocations, contents
reset), `statistics.memory_accounting`, `use_count` and the ssl handle, which
keep their values — and except `ifd` and `ofd`, which are set to -1, not 0. -/
theorem web_client_reuse_from_cache_spec (w : WebClient) :
    (web_client_reuse_from_cache w).ifd = -1 ∧
    (web_client_reuse_from_cache w).ofd = -1 ∧
    (web_client_reuse_from_cache w).use_count = w.use_count ∧
    (web_client_reuse_from_cache w).stats_memory_accounting
      = w.stats_memory_accounting ∧
    (web_client_reuse_from_cache w).ssl = w.ssl ∧
    (web_client_reuse_from_cache w).response.data = w.response.data.map buffer_reset ∧
    (web_client_reuse_from_cache w).response.header
      = w.response.header.map buffer_reset ∧
    (web_client_reuse_from_cache w).response.header_output
      = w.response.header_output.map buffer_reset ∧
    (web_client_reuse_from_cache w).url_path_decoded
      = w.url_path_decoded.map buffer_reset ∧
    (web_client_reuse_from_cache w).url_as_received
      = w.url_as_received.map buffer_reset ∧
    (web_client_reuse_from_cache w).url_query_string_decoded
      = w.url_query_string_decoded.map buffer_reset ∧
    (web_client_reuse_from_cache w).id = 0 ∧
    (web_client_reuse_from_cache w).flags = flagsZero ∧
    (web_client_reuse_from_cache w).mode = WebClientMode.GET ∧
    (web_client_reuse_from_cache w).tcp_cork = false ∧
    (web_client_reuse_from_cache w).post_payload = none ∧
    (web_client_reuse_from_cache w).header_parse_tries = 0 ∧
    (web_client_reuse_from_cache w).header_parse_last_size = 0 ∧
    (web_client_reuse_from_cache w).origin = none ∧
    (web_client_reuse_from_cache w).user_agent = none ∧
    (web_client_reuse_from_cache w).server_host = none ∧
    (web_client_reuse_from_cache w).forwarded_host = none ∧
    (web_client_reuse_from_cache w).auth_bearer_token = none ∧
    (web_client_reuse_from_cache w).response.code = 0 ∧
    (web_client_reuse_from_cache w).response.rlen = 0 ∧
    (web_client_reuse_from_cache w).response.sent = 0 ∧
    (web_client_reuse_from_cache w).response.zoutput = false ∧
    (web_client_reuse_from_cache w).response.zinitialized = false ∧
    (web_client_reuse_from_cache w).response.zsent = 0 ∧
    (web_client_reuse_from_cache w).response.zhave = 0 ∧
    (web_client_reuse_from_cache w).response.zstream = zstreamZero ∧
    (web_client_reuse_from_cache w).response.has_cookies = false ∧
    (web_client_reuse_from_cache w).stats_received_bytes = 0 ∧
    (web_client_reuse_from_cache w).stats_sent_bytes = 0 := by
  simp only [web_client_reuse_from_cache, web_client_reset_allocations,
             web_client_reset_path_flags]
  split_ifs <;> simp_all [webClientZero, webResponseZero, flagsZero, zstreamZero]

/-- Claim C7: the chain `zoutput ⇒ zinitialized ⇒ CHUNKED_TRANSFER` is
preserved by `web_client_enable_deflate`, `web_client_request_done` and
`web_client_reuse_from_cache`; `web_client_enable_deflate` is a no-op when
compression is already initialized or bytes have been sent, and on a
successful `deflateInit2` it sets `zsent = 0`, `zoutput`, `zinitialized` and
the CHUNKED_TRANSFER flag together; `web_client_reset_allocations` leaves
`zinitialized` clear and (when it was set) clears CHUNKED_TRANSFER with it,
while `web_client_request_done` clears `zoutput`. -/
theorem reset_allocations_zinit_false (w : WebClient) :
    (web_client_reset_allocations w false).response.zinitialized = false := by
  unfold web_client_reset_allocations web_client_reset_path_flags
  by_cases h : w.response.zinitialized = true
  · simp [h]
  · simp only [Bool.not_eq_true] at h
    simp [h]

theorem compression_chain (w : WebClient) (gzip deflateInit2_ok : Bool) :
    (zchainB w = true →
      zchainB (web_client_enable_deflate w gzip deflateInit2_ok) = true) ∧
    zchainB (web_client_request_done w) = true ∧
    zchainB (web_client_reuse_from_cache w) = true ∧
    (w.response.zinitialized = true ∨ w.response.sent ≠ 0 →
      web_client_enable_deflate w gzip deflateInit2_ok = w) ∧
    (w.response.zinitialized = false → w.response.sent = 0 → deflateInit2_ok = true →
      (web_client_enable_deflate w gzip deflateInit2_ok).response.zsent = 0 ∧
      (web_client_enable_deflate w gzip deflateInit2_ok).response.zoutput = true ∧
      (web_client_enable_deflate w gzip deflateInit2_ok).response.zinitialized = true ∧
      (web_client_enable_deflate w gzip deflateInit2_ok).flags.chunkedTransfer
        = true) ∧
    (web_client_reset_allocations w false).response.zinitialized = false ∧
    (w.response.zinitialized = true →
      (web_client_reset_allocations w false).flags.chunkedTransfer = false) ∧
    (web_client_request_done w).response.zoutput = false := by
  refine ⟨?_, ?_, ?_, ?_, ?_, ?_, ?_, rfl⟩
  · intro hz
    unfold web_client_enable_deflate
    split_ifs <;> simp_all [zchainB]
  · have hz : (web_client_request_done w).response.zoutput = false := rfl
    have hi : (web_client_request_done w).response.zinitialized = false :=
      reset_allocations_zinit_false _
    unfold zchainB
    rw [hz, hi]
    simp
  · rfl
  · intro h
    unfold web_client_enable_deflate
    rcases h with h | h
    · rw [if_pos h]
    · split_ifs <;> simp_all
  · intro h1 h2 h3
    subst h3
    unfold web_client_enable_deflate
    rw [if_neg (by simp [h1]), if_neg (by simp [h2]), if_pos rfl]
    simp
  · exact reset_allocations_zinit_false w
  · intro h
    unfold web_client_reset_allocations web_client_reset_path_flags
    simp [h]

/-- Witness for C7: on the fresh sample client the chain is preserved by a
successful deflate init, and a client mid-conversation is left untouched. -/
theorem compression_chain_witness :
    zchainB (web_client_enable_deflate sampleClient true true) = true ∧
    web_client_enable_deflate
        { sampleClient with response := { sampleClient.response with sent := 5 } }
        true true
      = { sampleClient with response := { sampleClient.response with sent := 5 } } := by
  constructor
  · exact (compression_chain sampleClient true true).1 (by decide)
  · exact (compression_chain
      { sampleClient with response := { sampleClient.response with sent := 5 } }
      true true).2.2.2.1 (Or.inr (by decide))

/-- Claim C9: `web_client_decode_path_and_query_string` in STREAM mode leaves
the decoded path empty and stores the whole percent-decoded input (truncated
to the URL size bound) as the query string; in any other mode it stores the
decoded bytes strictly before the first `'?'` as the path and the decoded
bytes from the `'?'` (inclusive) onward as the query string, the query string
being empty when the decoded input has no `'?'`. -/
theorem decode_path_and_query_split (w : WebClient) (urlSize : Nat)
    (pq : List Char)
    (hp : w.url_path_decoded.isSome = true)
    (hq : w.url_query_string_decoded.isSome = true) :
    (w.mode = WebClientMode.STREAM →
      bufContent (web_client_decode_path_and_query_string w urlSize
          pq).url_path_decoded = [] ∧
      bufContent (web_client_decode_path_and_query_string w urlSize
          pq).url_query_string_decoded = url_decode_r pq (urlSize + 1)) ∧
    (w.mode ≠ WebClientMode.STREAM →
      bufContent (web_client_decode_path_and_query_string w urlSize
          pq).url_path_decoded
        = (url_decode_r pq (urlSize + 1)).takeWhile (fun c => c ≠ '?') ∧
      bufContent (web_client_decode_path_and_query_string w urlSize
          pq).url_query_string_decoded
        = (url_decode_r pq (urlSize + 1)).dropWhile (fun c => c ≠ '?') ∧
      ('?' ∉ url_decode_r pq (urlSize + 1) →
        bufContent (web_client_decode_path_and_query_string w urlSize
          pq).url_query_string_decoded = [])) := by
  obtain ⟨bp, hbp⟩ := Option.isSome_iff_exists.mp hp
  obtain ⟨bq, hbq⟩ := Option.isSome_iff_exists.mp hq
  constructor
  · intro hm
    simp only [web_client_decode_path_and_query_string]
    split_ifs <;>
      simp [hm, hbp, hbq, bufContent, buffer_flush, buffer_strcat]
  · intro hm
    have hsplit :
        bufContent (web_client_decode_path_and_query_string w urlSize
            pq).url_path_decoded
          = (url_decode_r pq (urlSize + 1)).takeWhile (fun c => c ≠ '?') ∧
        bufContent (web_client_decode_path_and_query_string w urlSize
            pq).url_query_string_decoded
          = (url_decode_r pq (urlSize + 1)).dropWhile (fun c => c ≠ '?') := by
      simp only [web_client_decode_path_and_query_string]
      cases hc : strchr_pos (url_decode_r pq (urlSize + 1)) '?' with
      | none =>
        have hnm := (strchr_pos_none_iff _ _).mp hc
        have hforall : ∀ x ∈ url_decode_r pq (urlSize + 1), ¬ x = '?' :=
          fun x hx he => hnm (he ▸ hx)
        have htw2 : (url_decode_r pq (urlSize + 1)).takeWhile
            (fun c => !decide (c = '?')) = url_decode_r pq (urlSize + 1) := by
          apply takeWhile_all
          intro x hx
          simpa using hforall x hx
        split_ifs <;>
          simp [hm, hbp, hbq, bufContent, buffer_flush, buffer_strcat, hc, htw2] <;>
            exact hforall
      | some i =>
        have hsp := strchr_pos_some _ _ _ hc
        split_ifs <;>
          simp [hm, hbp, hbq, bufContent, buffer_flush, buffer_strcat, hc,
                hsp.1, hsp.2]
    refine ⟨hsplit.1, hsplit.2, ?_⟩
    intro hnone
    rw [hsplit.2]
    exact dropWhile_eq_nil_of_not_mem _ _ hnone

/-- Witness for C9 at a concrete non-STREAM client and input
`/a/b?x=1%202`. -/
theorem decode_path_and_query_split_witness :
    bufContent (web_client_decode_path_and_query_string sampleClient 50
        "/a/b?x=1%202".data).url_path_decoded
      = (url_decode_r "/a/b?x=1%202".data 51).takeWhile (fun c => c ≠ '?') ∧
    bufContent (web_client_decode_path_and_query_string sampleClient 50
        "/a/b?x=1%202".data).url_query_string_decoded
      = (url_decode_r "/a/b?x=1%202".data 51).dropWhile (fun c => c ≠ '?') :=
  ⟨((decode_path_and_query_split sampleClient 50 "/a/b?x=1%202".data
      (by decide) (by decide)).2 (by decide)).1,
   ((decode_path_and_query_split sampleClient 50 "/a/b?x=1%202".data
      (by decide) (by decide)).2 (by decide)).2.1⟩
